import Mathlib

/-!
Verification of the CineTrack external-content caching layer
(`backend/app/services/content_service.py`, `backend/app/services/redis_service.py`)
and two API endpoints (`auth.py` register, `watchlist.py` add_to_watchlist).

The Python code is shallowly embedded: JSON documents are an inductive type,
Python attribute errors (calling `.get`/`.lower`/`.replace` on `None`) are an
explicit error type, Redis is a key/value association list inside an explicit
state record, and the upstream TVMaze HTTP client is a deterministic oracle
`Env`.  The cache state also carries counters for cache reads, cache writes
and upstream HTTP attempts, so that "performs zero upstream calls" and
"does not touch the cache" are stated as equalities on those counters.

The redis round trip (json.dumps then json.loads) is modelled by storing the
deserialized document together with its serialization; `get_cached_data`
faithfully tests the raw string (`if data`) before deserializing, which is
why `Json.serialize` is defined and shown to never be empty.
-/

namespace Cinetrack

/-- JSON documents, as produced by `response.json()` and stored in Redis.
Numbers are modelled as integers: no claim computes with numeric values,
they are only passed through. -/
inductive Json where
  | null : Json
  | bool : Bool → Json
  | num : Int → Json
  | str : String → Json
  | arr : List Json → Json
  | obj : List (String × Json) → Json

/-- Python truthiness (`if x:`) of a deserialized JSON document:
`None`, `False`, `0`, `""`, `[]` and `{}` are falsy. -/
def Json.isTruthy : Json → Bool
  | .null => false
  | .bool b => b
  | .num n => n != 0
  | .str s => s != ""
  | .arr es => !es.isEmpty
  | .obj fs => !fs.isEmpty

/-- Exceptions that can propagate out of the content-service layer. -/
inductive PyError where
  | httpStatusError : Nat → PyError     -- httpx.HTTPStatusError (carries status)
  | transportError : PyError            -- httpx transport-level failure
  | retryError : PyError → PyError      -- tenacity.RetryError wrapping the last attempt
  | exception : String → PyError        -- plain `Exception(msg)`
  | attributeError : PyError            -- e.g. `None.get(...)` / `None.lower()`
  | typeError : PyError                 -- e.g. iterating a non-iterable
deriving DecidableEq

/-!
Python string primitives, over the character list of a `String`.
(The core `String.trim`/`replace`/`toLower`/`splitOn` use byte-position
loops or well-founded recursion, so they are re-implemented structurally;
values flowing through this service are ASCII.)
-/

/-- Python whitespace for `str.strip()`. -/
def pyIsSpace (c : Char) : Bool :=
  c = ' ' || c = '\t' || c = '\n' || c = '\r' || c = '\x0b' || c = '\x0c'

/-- Python `s.strip()`. -/
def pyStrip (s : String) : String :=
  ⟨((s.data.dropWhile pyIsSpace).reverse.dropWhile pyIsSpace).reverse⟩

/-- Python `s.lower()`. -/
def pyLower (s : String) : String :=
  ⟨s.data.map Char.toLower⟩

/-- List-prefix test. -/
def isPrefixList : List Char → List Char → Bool
  | [], _ => true
  | _ :: _, [] => false
  | p :: ps, c :: cs => p == c && isPrefixList ps cs

/-- Left-to-right non-overlapping replacement; fuel is the input length. -/
def replaceCore (pat repl : List Char) : Nat → List Char → List Char
  | 0, l => l
  | _, [] => []
  | fuel + 1, c :: cs =>
    if isPrefixList pat (c :: cs) then
      repl ++ replaceCore pat repl fuel (List.drop (pat.length - 1) cs)
    else
      c :: replaceCore pat repl fuel cs

/-- Python `s.replace(pat, repl)` (for the non-empty patterns used here). -/
def pyReplaceStr (s pat repl : String) : String :=
  if pat = "" then s
  else ⟨replaceCore pat.data repl.data s.data.length s.data⟩

/-- Substring occurrence test. -/
def containsSub : List Char → List Char → Bool
  | [], needle => needle.isEmpty
  | c :: cs, needle => isPrefixList needle (c :: cs) || containsSub cs needle

/-- First value bound to `key` in a Python dict rendered as a field list. -/
def lookupField : List (String × Json) → String → Option Json
  | [], _ => none
  | kv :: rest, key => if kv.1 = key then some kv.2 else lookupField rest key

/-- Python `d.get(key, dflt)`.  Raises `AttributeError` when the receiver is
not a dict (in particular when it is `None`). -/
def Json.pyGet (j : Json) (key : String) (dflt : Json) : Except PyError Json :=
  match j with
  | .obj fields =>
    .ok (match lookupField fields key with
         | some v => v
         | none => dflt)
  | _ => .error .attributeError

/-- Python `s.lower()`, failing on non-strings (in particular on `None`). -/
def Json.pyLowerStr : Json → Except PyError String
  | .str s => .ok (pyLower s)
  | _ => .error .attributeError

/-- Python `s.replace(a, b)`, failing on non-strings (in particular on `None`). -/
def Json.pyReplace (j : Json) (a b : String) : Except PyError Json :=
  match j with
  | .str s => .ok (.str (pyReplaceStr s a b))
  | _ => .error .attributeError

/-- Python `needle in hay` on strings (substring test). -/
def strContains (hay needle : String) : Bool :=
  containsSub hay.data needle.data

mutual
/-- Model of `json.dumps` (string escaping elided; only used to justify that a stored
value is a non-empty string, which is what `if data:` in
`RedisService.get_cached_data` tests). -/
def Json.serialize : Json → String
  | .null => "null"
  | .bool true => "true"
  | .bool false => "false"
  | .num n => toString n
  | .str s => "\"" ++ s ++ "\""
  | .arr es => "[" ++ Json.serializeList es ++ "]"
  | .obj fs => "\x7b" ++ Json.serializeFields fs ++ "\x7d"

def Json.serializeList : List Json → String
  | [] => ""
  | [j] => Json.serialize j
  | j :: j2 :: rest => Json.serialize j ++ "," ++ Json.serializeList (j2 :: rest)

def Json.serializeFields : List (String × Json) → String
  | [] => ""
  | [kv] => "\"" ++ kv.1 ++ "\":" ++ Json.serialize kv.2
  | kv :: kv2 :: rest =>
    "\"" ++ kv.1 ++ "\":" ++ Json.serialize kv.2 ++ "," ++ Json.serializeFields (kv2 :: rest)
end

/-- A Redis entry: the stored document plus the TTL it was written with.
Claims are all "within the TTL window", so expiry is not an event here. -/
structure CacheEntry where
  value : Json
  ttl : Nat

/-- Observable state threaded through every operation: the Redis contents
plus counters of cache reads, cache writes and upstream HTTP attempts. -/
structure St where
  cache : List (String × CacheEntry)
  cacheGets : Nat
  cacheSets : Nat
  upstreamCalls : Nat

/-- First entry stored under `key` (Redis keys are unique; the model keeps
the most recent write first). -/
def lookupCache : List (String × CacheEntry) → String → Option CacheEntry
  | [], _ => none
  | kv :: rest, key => if kv.1 = key then some kv.2 else lookupCache rest key

namespace RedisService

/-- Embedding of `redis_service.get_cached_data`: `data = redis.get(key)` then
`json.loads(data) if data else None`.  The `if data` test is on the raw
serialized string. -/
def get_cached_data (st : St) (key : String) : Option Json × St :=
  let st1 : St := { st with cacheGets := st.cacheGets + 1 }
  match lookupCache st.cache key with
  | some e => (if Json.serialize e.value = "" then none else some e.value, st1)
  | none => (none, st1)

/-- Embedding of `redis_service.set_cached_data`: `redis.setex(key, ttl, json.dumps(data))`
(overwrites any previous value under the same key). -/
def set_cached_data (st : St) (key : String) (data : Json) (ttl : Nat) : St :=
  { st with
    cache := (key, ⟨data, ttl⟩) :: st.cache.filter (fun kv => !(kv.1 == key)),
    cacheSets := st.cacheSets + 1 }

/-- Embedding of `redis_service.delete_cached_data`: `redis.delete(key)`.  Redis `DEL`
takes literal key names; it performs no glob-pattern matching. -/
def delete_cached_data (st : St) (key : String) : St :=
  { st with cache := st.cache.filter (fun kv => !(kv.1 == key)) }

end RedisService

/-- One upstream HTTP response as seen by `httpx`. -/
inductive UpstreamResponse where
  | success : Json → UpstreamResponse
  | httpError : Nat → UpstreamResponse
  | transportError : UpstreamResponse

/-- The upstream TVMaze API, a deterministic function of endpoint and query
parameters (the claims all quantify within one TTL window, during which the
upstream is assumed stable). -/
structure Env where
  upstream : String → List (String × String) → UpstreamResponse

/-- One `client.get(url, params); response.raise_for_status(); response.json()`
attempt.  Every attempt bumps the upstream-call counter. -/
def attemptRequest (env : Env) (endpoint : String) (params : List (String × String))
    (st : St) : Except PyError Json × St :=
  let st1 : St := { st with upstreamCalls := st.upstreamCalls + 1 }
  match env.upstream endpoint params with
  | .success body => (.ok body, st1)
  | .httpError s => (.error (.httpStatusError s), st1)
  | .transportError => (.error .transportError, st1)

/-- The tenacity `@retry(stop=stop_after_attempt(3), wait=...)` wrapper around
`_request`.  With the default `reraise=False`, once the stop condition is
reached tenacity raises `RetryError` wrapping the last attempt, not the
original exception. -/
def retryCall (env : Env) (endpoint : String) (params : List (String × String)) :
    Nat → St → Except PyError Json × St
  | 0, st => (.error (.exception "no attempts"), st)  -- unreachable: budget is 3
  | 1, st =>
    match attemptRequest env endpoint params st with
    | (.ok v, st1) => (.ok v, st1)
    | (.error e, st1) => (.error (.retryError e), st1)
  | n + 2, st =>
    match attemptRequest env endpoint params st with
    | (.ok v, st1) => (.ok v, st1)
    | (.error _, st1) => retryCall env endpoint params (n + 1) st1

namespace ContentService

/-- Embedding of `ContentService._make_request`: the retry-wrapped fetch, then
`except httpx.HTTPStatusError` translating a 429 into
`Exception("Rate limit exceeded. Please try again later.")`.  Note that a
persistent failure reaches this handler as `RetryError`, not as
`HTTPStatusError`. -/
def _make_request (env : Env) (endpoint : String) (params : List (String × String))
    (st : St) : Except PyError Json × St :=
  match retryCall env endpoint params 3 st with
  | (.ok v, st1) => (.ok v, st1)
  | (.error e, st1) =>
    match e with
    | .httpStatusError s =>
      if s = 429 then
        (.error (.exception "Rate limit exceeded. Please try again later."), st1)
      else (.error (.httpStatusError s), st1)
    | _ => (.error e, st1)

end ContentService

/-- Python `x or "all"` on an optional string: `None` and `""` are falsy. -/
def pyOrAll : Option String → String
  | none => "all"
  | some s => if s = "" then "all" else s

/-- The search cache key: the f-string joining query, content_type or
"all", language or "all", and page with ":".  The page parameter is
declared `int = Query(1, ge=1)` in the endpoint, so it is modelled as a
natural number. -/
def searchCacheKey (query : String) (content_type language : Option String) (page : Nat) :
    String :=
  "search:" ++ query ++ ":" ++ pyOrAll content_type ++ ":" ++ pyOrAll language ++ ":"
    ++ Nat.repr page

/-- The detail cache key `f"content:\x7bcontent_type\x7d:\x7btvmaze_id\x7d"`. -/
def contentCacheKey (content_type tvmaze_id : String) : String :=
  "content:" ++ content_type ++ ":" ++ tvmaze_id

/-- The short-query / empty-upstream search response
`{"results": [], "page": page, "total_pages": 0, "total_results": 0}`. -/
def emptySearchResponse (page : Nat) : Json :=
  .obj [("results", .arr []), ("page", .num page), ("total_pages", .num 0),
        ("total_results", .num 0)]

/-- Key-membership test on the constructed result dict
(`all(key in processed_result for key in ["id", "title"])`). -/
def Json.hasKey (j : Json) (key : String) : Bool :=
  match j with
  | .obj fields => (lookupField fields key).isSome
  | _ => false

/-- The body of the `for result in response:` loop of
`ContentService.search_content`: returns `none` when the item is skipped
(`continue`), `some processed_result` when it is appended. -/
def processSearchItem (content_type language : Option String) (result : Json) :
    Except PyError (Option Json) := do
  let showJ ← result.pyGet "show" (.obj [])
  if !showJ.isTruthy then
    return none
  -- `if content_type: ... if content_type.lower() not in show_type: continue`
  let ctSkip : Except PyError Bool :=
    match content_type with
    | some ct =>
      if ct = "" then .ok false
      else do
        let t ← showJ.pyGet "type" (.str "")
        let show_type ← t.pyLowerStr
        pure (!strContains show_type (pyLower ct))
    | none => .ok false
  if ← ctSkip then
    return none
  -- `show_language = show.get("language", "").lower()` (always computed)
  let langJ ← showJ.pyGet "language" (.str "")
  let show_language ← langJ.pyLowerStr
  -- `if language and show_language != language.lower(): continue`
  let langSkip : Bool :=
    match language with
    | some l => if l = "" then false else show_language != pyLower l
    | none => false
  if langSkip then
    return none
  -- `summary = show.get("summary", "")`, then strip paragraph tags if truthy
  let summaryJ ← showJ.pyGet "summary" (.str "")
  let overview ←
    if summaryJ.isTruthy then do
      let s1 ← summaryJ.pyReplace "<p>" ""
      s1.pyReplace "</p>" ""
    else pure (.str "")
  -- `image = show.get("image", {}) or {}`
  let image0 ← showJ.pyGet "image" (.obj [])
  let image : Json := if image0.isTruthy then image0 else .obj []
  -- dict literal fields, in source evaluation order
  let idJ ← showJ.pyGet "id" .null
  let nameJ ← showJ.pyGet "name" .null
  let poster ← image.pyGet "medium" (.str "")
  let backdrop ← image.pyGet "original" (.str "")
  let premiered ← showJ.pyGet "premiered" .null
  let rating0 ← showJ.pyGet "rating" (.obj [])
  let rating ← rating0.pyGet "average" .null
  let genres ← showJ.pyGet "genres" (.arr [])
  let status ← showJ.pyGet "status" .null
  let runtime ← showJ.pyGet "runtime" .null
  let typeJ ← showJ.pyGet "type" (.str "")
  let typeLower ← typeJ.pyLowerStr
  let processed_result : Json := .obj
    [("id", idJ), ("title", nameJ), ("overview", overview), ("poster_url", poster),
     ("backdrop_url", backdrop), ("release_date", premiered), ("rating", rating),
     ("genres", genres), ("status", status), ("runtime", runtime),
     ("type", .str typeLower), ("language", .str show_language)]
  -- `if all(key in processed_result for key in ["id", "title"])`
  if processed_result.hasKey "id" && processed_result.hasKey "title" then
    return some processed_result
  else
    return none

/-- The whole result-processing loop of `search_content`. -/
def processSearchResults (content_type language : Option String) :
    List Json → Except PyError (List Json)
  | [] => .ok []
  | r :: rest => do
    let h ← processSearchItem content_type language r
    let t ← processSearchResults content_type language rest
    match h with
    | some pr => .ok (pr :: t)
    | none => .ok t

namespace ContentService

/-- The cache-miss tail of `search_content`: fetch `search/shows`, process,
cache the response only when the processed list is non-empty, return it. -/
def searchFetch (env : Env) (query : String) (content_type language : Option String)
    (page : Nat) (cache_key : String) (st : St) : Except PyError Json × St :=
  match _make_request env "search/shows" [("q", query)] st with
  | (.error e, st1) => (.error e, st1)
  | (.ok response, st1) =>
    if !response.isTruthy then (.ok (emptySearchResponse page), st1)
    else
      match response with
      | .arr items =>
        match processSearchResults content_type language items with
        | .error e => (.error e, st1)
        | .ok processed =>
          let response_data : Json := .obj
            [("results", .arr processed), ("page", .num page),
             ("total_pages", .num (if processed.isEmpty then 0 else 1)),
             ("total_results", .num processed.length)]
          let st2 :=
            if processed.isEmpty then st1
            else RedisService.set_cached_data st1 cache_key response_data 3600
          (.ok response_data, st2)
      | _ => (.error .typeError, st1)

/-- Embedding of `ContentService.search_content`: short-query guard, cache lookup (hit
test is Python truthiness of the deserialized value), then fetch. -/
def search_content (env : Env) (query : String) (content_type language : Option String)
    (page : Nat) (st : St) : Except PyError Json × St :=
  if query = "" || (pyStrip query).length < 2 then
    (.ok (emptySearchResponse page), st)
  else
    match RedisService.get_cached_data st (searchCacheKey query content_type language page) with
    | (some v, st1) =>
      if v.isTruthy then (.ok v, st1)
      else searchFetch env query content_type language page
        (searchCacheKey query content_type language page) st1
    | (none, st1) =>
      searchFetch env query content_type language page
        (searchCacheKey query content_type language page) st1

end ContentService

/-- The normalization step of `ContentService.get_content_by_id`, applied to
the parsed `shows/{tvmaze_id}` payload.  Fields appear in the evaluation
order of the Python dict literal; each `.get(...).get(...)` or
`.get(...).replace(...)` chain raises `AttributeError` when the outer field
is present but `null`. -/
def processContent (response : Json) : Except PyError Json := do
  let idJ ← response.pyGet "id" .null
  let nameJ ← response.pyGet "name" .null
  -- `response.get("summary", "").replace("<p>", "").replace("</p>", "")`
  let summaryJ ← response.pyGet "summary" (.str "")
  let s1 ← summaryJ.pyReplace "<p>" ""
  let overview ← s1.pyReplace "</p>" ""
  -- `response.get("image", {}).get("medium")` / `.get("original")`
  let imageJ ← response.pyGet "image" (.obj [])
  let poster ← imageJ.pyGet "medium" .null
  let backdrop ← imageJ.pyGet "original" .null
  let premiered ← response.pyGet "premiered" .null
  -- `response.get("rating", {}).get("average")`
  let rating0 ← response.pyGet "rating" (.obj [])
  let rating ← rating0.pyGet "average" .null
  let genres ← response.pyGet "genres" (.arr [])
  let status ← response.pyGet "status" .null
  let runtime ← response.pyGet "runtime" .null
  -- `response.get("network", {}).get("name")`
  let network0 ← response.pyGet "network" (.obj [])
  let network ← network0.pyGet "name" .null
  let schedule ← response.pyGet "schedule" (.obj [])
  -- `response.get("webChannel", {}).get("name")`
  let web0 ← response.pyGet "webChannel" (.obj [])
  let web_channel ← web0.pyGet "name" .null
  let externals ← response.pyGet "externals" (.obj [])
  let updated ← response.pyGet "updated" .null
  .ok (.obj
    [("id", idJ), ("title", nameJ), ("overview", overview), ("poster_url", poster),
     ("backdrop_url", backdrop), ("release_date", premiered), ("rating", rating),
     ("genres", genres), ("status", status), ("runtime", runtime), ("type", .str "tv"),
     ("network", network), ("schedule", schedule), ("web_channel", web_channel),
     ("externals", externals), ("updated", updated)])

namespace ContentService

/-- The cache-miss tail of `get_content_by_id`: fetch `shows/{id}`,
normalize, cache with the 24-hour TTL, return. -/
def contentFetch (env : Env) (tvmaze_id : String) (cache_key : String) (st : St) :
    Except PyError Json × St :=
  match _make_request env ("shows/" ++ tvmaze_id) [] st with
  | (.error e, st1) => (.error e, st1)
  | (.ok response, st1) =>
    match processContent response with
    | .error e => (.error e, st1)
    | .ok processed_content =>
      (.ok processed_content, RedisService.set_cached_data st1 cache_key processed_content 86400)

/-- Embedding of `ContentService.get_content_by_id`: cache lookup (hit test is Python
truthiness of the deserialized value), then fetch-and-cache. -/
def get_content_by_id (env : Env) (tvmaze_id content_type : String) (st : St) :
    Except PyError Json × St :=
  match RedisService.get_cached_data st (contentCacheKey content_type tvmaze_id) with
  | (some v, st1) =>
    if v.isTruthy then (.ok v, st1)
    else contentFetch env tvmaze_id (contentCacheKey content_type tvmaze_id) st1
  | (none, st1) => contentFetch env tvmaze_id (contentCacheKey content_type tvmaze_id) st1

/-- Embedding of `ContentService.clear_content_cache`.  With an ID it calls
`redis.delete` on the literal string `content:*:{id}` (Redis `DEL` does not
expand glob patterns); without an ID it deletes the keys matched by
`redis.keys("content:*")`, i.e. every key starting with `content:`. -/
def clear_content_cache (st : St) (tvmaze_id : Option String) : St :=
  match tvmaze_id with
  | some tid => RedisService.delete_cached_data st ("content:*:" ++ tid)
  | none =>
    { st with cache := st.cache.filter (fun kv => !(isPrefixList "content:".data kv.1.data)) }

end ContentService

/-- One item of the `get_schedule` response projection. -/
def processScheduleItem (s : Json) : Except PyError Json := do
  let idJ ← s.pyGet "id" .null
  let airtime ← s.pyGet "airtime" .null
  let airstamp ← s.pyGet "airstamp" .null
  let runtime ← s.pyGet "runtime" .null
  let showJ ← s.pyGet "show" (.obj [])
  let sid ← showJ.pyGet "id" .null
  let sname ← showJ.pyGet "name" .null
  let stype ← showJ.pyGet "type" .null
  let slang ← showJ.pyGet "language" .null
  let sstatus ← showJ.pyGet "status" .null
  let simg0 ← showJ.pyGet "image" (.obj [])
  let simg ← simg0.pyGet "medium" .null
  .ok (.obj
    [("id", idJ), ("airtime", airtime), ("airstamp", airstamp), ("runtime", runtime),
     ("show", .obj [("id", sid), ("name", sname), ("type", stype), ("language", slang),
                    ("status", sstatus), ("image", simg)])])

/-- One item of the `search_people` response projection. -/
def processPersonItem (p : Json) : Except PyError Json := do
  let person ← p.pyGet "person" (.obj [])
  let pid ← person.pyGet "id" .null
  let pname ← person.pyGet "name" .null
  let pimg0 ← person.pyGet "image" (.obj [])
  let pimg ← pimg0.pyGet "medium" .null
  let birthday ← person.pyGet "birthday" .null
  let deathday ← person.pyGet "deathday" .null
  let gender ← person.pyGet "gender" .null
  let country0 ← person.pyGet "country" (.obj [])
  let country ← country0.pyGet "name" .null
  .ok (.obj
    [("id", pid), ("name", pname), ("image", pimg), ("birthday", birthday),
     ("deathday", deathday), ("gender", gender), ("country", country)])

/-- List-comprehension helper: map a fallible projection over the items. -/
def mapItems (f : Json → Except PyError Json) : List Json → Except PyError (List Json)
  | [] => .ok []
  | j :: rest => do
    let h ← f j
    let t ← mapItems f rest
    .ok (h :: t)

namespace ContentService

/-- Embedding of `ContentService.get_schedule`: builds the params dict and calls the
upstream `schedule` endpoint directly — it never consults the cache. -/
def get_schedule (env : Env) (country : String) (date : Option String) (st : St) :
    Except PyError Json × St :=
  match _make_request env "schedule"
      ([("country", country)] ++
        (match date with
         | some d => if d = "" then [] else [("date", d)]
         | none => [])) st with
  | (.error e, st1) => (.error e, st1)
  | (.ok schedule, st1) =>
    if !schedule.isTruthy then (.ok (.arr []), st1)
    else
      match schedule with
      | .arr items =>
        match mapItems processScheduleItem items with
        | .ok out => (.ok (.arr out), st1)
        | .error e => (.error e, st1)
      | _ => (.error .typeError, st1)

/-- Embedding of `ContentService.search_people`: calls the upstream `search/people`
endpoint directly — it never consults the cache. -/
def search_people (env : Env) (query : String) (st : St) : Except PyError Json × St :=
  match _make_request env "search/people" [("q", query)] st with
  | (.error e, st1) => (.error e, st1)
  | (.ok people, st1) =>
    if !people.isTruthy then (.ok (.arr []), st1)
    else
      match people with
      | .arr items =>
        match mapItems processPersonItem items with
        | .ok out => (.ok (.arr out), st1)
        | .error e => (.error e, st1)
      | _ => (.error .typeError, st1)

end ContentService

/-- Python `str(x)` on a JSON value (compound values routed through the
serializer; only scalar ids ever reach this in the code). -/
def Json.pyStr : Json → String
  | .null => "None"
  | .bool true => "True"
  | .bool false => "False"
  | .num n => toString n
  | .str s => s
  | .arr es => Json.serialize (.arr es)
  | .obj fs => Json.serialize (.obj fs)

/-- Python `x or []` (used for `cast or []`, `crew_credits or []`, ...). -/
def jsonOrEmptyList (j : Json) : Json :=
  if j.isTruthy then j else .arr []

/-- The per-show projection shared verbatim by `get_similar_content` and
`get_trending_content` (fields in dict-literal evaluation order; the
summary `.replace` chain and the `rating`/`image` `.get` chains crash on
present-but-null values, as in the source). -/
def processShowCard (result : Json) : Except PyError Json := do
  let idJ ← result.pyGet "id" .null
  let nameJ ← result.pyGet "name" .null
  let summaryJ ← result.pyGet "summary" (.str "")
  let s1 ← summaryJ.pyReplace "<p>" ""
  let overview ← s1.pyReplace "</p>" ""
  let imageJ ← result.pyGet "image" (.obj [])
  let poster ← imageJ.pyGet "medium" .null
  let backdrop ← imageJ.pyGet "original" .null
  let premiered ← result.pyGet "premiered" .null
  let rating0 ← result.pyGet "rating" (.obj [])
  let rating ← rating0.pyGet "average" .null
  let genres ← result.pyGet "genres" (.arr [])
  let status ← result.pyGet "status" .null
  let runtime ← result.pyGet "runtime" .null
  .ok (.obj
    [("id", idJ), ("title", nameJ), ("overview", overview), ("poster_url", poster),
     ("backdrop_url", backdrop), ("release_date", premiered), ("rating", rating),
     ("genres", genres), ("status", status), ("runtime", runtime), ("type", .str "tv")])

/-- One iteration of the cast loop of `get_cast_and_crew`. -/
def processCastItem (person : Json) : Except PyError Json := do
  let character ← person.pyGet "character" (.obj [])
  let person_data ← person.pyGet "person" (.obj [])
  let cid ← person_data.pyGet "id" .null
  let cname ← person_data.pyGet "name" .null
  let chname ← character.pyGet "name" .null
  let img0 ← person_data.pyGet "image" (.obj [])
  let profile ← img0.pyGet "medium" .null
  .ok (.obj [("id", cid), ("name", cname), ("character", chname), ("profile_url", profile)])

namespace ContentService

/-- The cache-miss tail of `get_cast_and_crew`: fetch `shows/{id}/cast`,
project the cast (crew stays empty), cache with the 24-hour TTL. -/
def creditsFetch (env : Env) (tvmaze_id : String) (cache_key : String) (st : St) :
    Except PyError Json × St :=
  match _make_request env ("shows/" ++ tvmaze_id ++ "/cast") [] st with
  | (.error e, st1) => (.error e, st1)
  | (.ok response, st1) =>
    match response with
    | .arr items =>
      match mapItems processCastItem items with
      | .error e => (.error e, st1)
      | .ok cast =>
        (.ok (.obj [("cast", .arr cast), ("crew", .arr [])]),
          RedisService.set_cached_data st1 cache_key
            (.obj [("cast", .arr cast), ("crew", .arr [])]) 86400)
    | _ => (.error .typeError, st1)

/-- Embedding of `ContentService.get_cast_and_crew`: cache lookup first,
then fetch-and-cache. -/
def get_cast_and_crew (env : Env) (tvmaze_id content_type : String) (st : St) :
    Except PyError Json × St :=
  match RedisService.get_cached_data st ("credits:" ++ content_type ++ ":" ++ tvmaze_id) with
  | (some v, st1) =>
    if v.isTruthy then (.ok v, st1)
    else creditsFetch env tvmaze_id ("credits:" ++ content_type ++ ":" ++ tvmaze_id) st1
  | (none, st1) =>
    creditsFetch env tvmaze_id ("credits:" ++ content_type ++ ":" ++ tvmaze_id) st1

end ContentService

/-- The empty similar-content response (note: the code returns the literal
page 1 here, not the requested page). -/
def emptySimilarResponse : Json :=
  .obj [("results", .arr []), ("page", .num 1), ("total_pages", .num 1),
        ("total_results", .num 0)]

/-- The filtering loop of `get_similar_content`: keep every show whose
stringified id differs from the requested one. -/
def processSimilarItems (tvmaze_id : String) : List Json → Except PyError (List Json)
  | [] => .ok []
  | r :: rest => do
    let idJ ← r.pyGet "id" .null
    if idJ.pyStr != tvmaze_id then
      let card ← processShowCard r
      let t ← processSimilarItems tvmaze_id rest
      .ok (card :: t)
    else
      processSimilarItems tvmaze_id rest

namespace ContentService

/-- The cache-miss tail of `get_similar_content`: fetch the show itself
via `get_content_by_id` (which may itself read and write the cache),
extract its first genre, fetch `shows?genres=...`, filter and project,
cache with the 1-hour TTL. -/
def similarFetch (env : Env) (tvmaze_id content_type : String) (page : Nat)
    (cache_key : String) (st : St) : Except PyError Json × St :=
  match get_content_by_id env tvmaze_id content_type st with
  | (.error e, st1) => (.error e, st1)
  | (.ok showJ, st1) =>
    if !showJ.isTruthy then (.ok emptySimilarResponse, st1)
    else
      match showJ.pyGet "genres" (.arr []) with
      | .error e => (.error e, st1)
      | .ok genresJ =>
        if !genresJ.isTruthy then (.ok emptySimilarResponse, st1)
        else
          match genresJ with
          | .arr (Json.str g0 :: _) =>
            match _make_request env "shows" [("genres", g0)] st1 with
            | (.error e, st2) => (.error e, st2)
            | (.ok response, st2) =>
              match response with
              | .arr items =>
                match processSimilarItems tvmaze_id items with
                | .error e => (.error e, st2)
                | .ok processed =>
                  (.ok (.obj
                    [("results", .arr processed), ("page", .num page),
                     ("total_pages", .num 1), ("total_results", .num processed.length)]),
                    RedisService.set_cached_data st2 cache_key
                      (.obj [("results", .arr processed), ("page", .num page),
                             ("total_pages", .num 1),
                             ("total_results", .num processed.length)]) 3600)
              | _ => (.error .typeError, st2)
          | _ => (.error .typeError, st1)

/-- Embedding of `ContentService.get_similar_content`: cache lookup first,
then fetch-and-cache. -/
def get_similar_content (env : Env) (tvmaze_id content_type : String) (page : Nat)
    (st : St) : Except PyError Json × St :=
  match RedisService.get_cached_data st
      ("similar:" ++ content_type ++ ":" ++ tvmaze_id ++ ":" ++ Nat.repr page) with
  | (some v, st1) =>
    if v.isTruthy then (.ok v, st1)
    else similarFetch env tvmaze_id content_type page
      ("similar:" ++ content_type ++ ":" ++ tvmaze_id ++ ":" ++ Nat.repr page) st1
  | (none, st1) =>
    similarFetch env tvmaze_id content_type page
      ("similar:" ++ content_type ++ ":" ++ tvmaze_id ++ ":" ++ Nat.repr page) st1

/-- The cache-miss tail of `get_trending_content`: fetch `shows` sorted by
rating, project the first 20, cache with the 1-hour TTL. -/
def trendingFetch (env : Env) (cache_key : String) (st : St) :
    Except PyError Json × St :=
  match _make_request env "shows" [("sort", "rating")] st with
  | (.error e, st1) => (.error e, st1)
  | (.ok response, st1) =>
    match response with
    | .arr items =>
      match mapItems processShowCard (items.take 20) with
      | .error e => (.error e, st1)
      | .ok processed =>
        (.ok (.arr processed),
          RedisService.set_cached_data st1 cache_key (.arr processed) 3600)
    | _ => (.error .typeError, st1)

/-- Embedding of `ContentService.get_trending_content`: cache lookup first,
then fetch-and-cache. -/
def get_trending_content (env : Env) (content_type time_window : String) (st : St) :
    Except PyError Json × St :=
  match RedisService.get_cached_data st
      ("trending:" ++ content_type ++ ":" ++ time_window) with
  | (some v, st1) =>
    if v.isTruthy then (.ok v, st1)
    else trendingFetch env ("trending:" ++ content_type ++ ":" ++ time_window) st1
  | (none, st1) =>
    trendingFetch env ("trending:" ++ content_type ++ ":" ++ time_window) st1

end ContentService

/-- Insertion into a sorted list of strings. -/
def insertSorted (x : String) : List String → List String
  | [] => [x]
  | y :: ys => if x ≤ y then x :: y :: ys else y :: insertSorted x ys

/-- Insertion sort (the order Python `sorted` uses on strings). -/
def sortStrings : List String → List String
  | [] => []
  | x :: xs => insertSorted x (sortStrings xs)

/-- Distinct elements (Python `set` semantics; order irrelevant since the
result is sorted afterwards). -/
def dedupStrings : List String → List String
  | [] => []
  | x :: xs => if xs.contains x then dedupStrings xs else x :: dedupStrings xs

/-- All elements must be strings (genre lists are lists of strings). -/
def strListOf : List Json → Except PyError (List String)
  | [] => .ok []
  | .str s :: rest => do
    let t ← strListOf rest
    .ok (s :: t)
  | _ => .error .typeError

/-- The genre-collection loop of `get_genres`:
`genres.update(show.get("genres", []))` over every show. -/
def collectGenres : List Json → Except PyError (List String)
  | [] => .ok []
  | showJ :: rest => do
    let g ← showJ.pyGet "genres" (.arr [])
    let gs ←
      match g with
      | .arr es => strListOf es
      | _ => .error .typeError
    let t ← collectGenres rest
    .ok (gs ++ t)

namespace ContentService

/-- The cache-miss tail of `get_genres`: fetch `shows`, collect the sorted
distinct genres, enumerate them into `id`/`name` records, cache with the
24-hour TTL. -/
def genresFetch (env : Env) (cache_key : String) (st : St) :
    Except PyError Json × St :=
  match _make_request env "shows" [] st with
  | (.error e, st1) => (.error e, st1)
  | (.ok response, st1) =>
    match response with
    | .arr shows =>
      match collectGenres shows with
      | .error e => (.error e, st1)
      | .ok gs =>
        (.ok (.arr ((sortStrings (dedupStrings gs)).enum.map
            (fun ig => Json.obj [("id", .num ig.1), ("name", .str ig.2)]))),
          RedisService.set_cached_data st1 cache_key
            (.arr ((sortStrings (dedupStrings gs)).enum.map
              (fun ig => Json.obj [("id", .num ig.1), ("name", .str ig.2)]))) 86400)
    | _ => (.error .typeError, st1)

/-- Embedding of `ContentService.get_genres`: cache lookup first, then
fetch-and-cache. -/
def get_genres (env : Env) (content_type : String) (st : St) :
    Except PyError Json × St :=
  match RedisService.get_cached_data st ("genres:" ++ content_type) with
  | (some v, st1) =>
    if v.isTruthy then (.ok v, st1)
    else genresFetch env ("genres:" ++ content_type) st1
  | (none, st1) => genresFetch env ("genres:" ++ content_type) st1

end ContentService

/-- One cast-credit item of `get_person_details`. -/
def processCastRole (c : Json) : Except PyError Json := do
  let ch0 ← c.pyGet "character" (.obj [])
  let ch ← ch0.pyGet "name" .null
  let emb ← c.pyGet "_embedded" (.obj [])
  let showJ ← emb.pyGet "show" (.obj [])
  let sid ← showJ.pyGet "id" .null
  let sname ← showJ.pyGet "name" .null
  let simg0 ← showJ.pyGet "image" (.obj [])
  let simg ← simg0.pyGet "medium" .null
  .ok (.obj [("character", ch),
    ("show", .obj [("id", sid), ("name", sname), ("image", simg)])])

/-- One crew-credit item of `get_person_details`. -/
def processCrewRole (c : Json) : Except PyError Json := do
  let t ← c.pyGet "type" .null
  let emb ← c.pyGet "_embedded" (.obj [])
  let showJ ← emb.pyGet "show" (.obj [])
  let sid ← showJ.pyGet "id" .null
  let sname ← showJ.pyGet "name" .null
  let simg0 ← showJ.pyGet "image" (.obj [])
  let simg ← simg0.pyGet "medium" .null
  .ok (.obj [("type", t),
    ("show", .obj [("id", sid), ("name", sname), ("image", simg)])])

/-- The return-dict of `get_person_details` (fields in evaluation order). -/
def processPersonDetails (person cast_credits crew_credits : Json) :
    Except PyError Json := do
  let idJ ← person.pyGet "id" .null
  let nameJ ← person.pyGet "name" .null
  let img0 ← person.pyGet "image" (.obj [])
  let img ← img0.pyGet "original" .null
  let gender ← person.pyGet "gender" .null
  let birthday ← person.pyGet "birthday" .null
  let deathday ← person.pyGet "deathday" .null
  let c0 ← person.pyGet "country" (.obj [])
  let country ← c0.pyGet "name" .null
  let castRoles ←
    match jsonOrEmptyList cast_credits with
    | .arr items => mapItems processCastRole items
    | _ => .error .typeError
  let crewRoles ←
    match jsonOrEmptyList crew_credits with
    | .arr items => mapItems processCrewRole items
    | _ => .error .typeError
  .ok (.obj [("id", idJ), ("name", nameJ), ("image", img), ("gender", gender),
    ("birthday", birthday), ("deathday", deathday), ("country", country),
    ("castRoles", .arr castRoles), ("crewRoles", .arr crewRoles)])

/-- A `person`/`character` list item (show details cast, episode guest
cast). -/
def processPersonCharacterItem (c : Json) : Except PyError Json := do
  let p0 ← c.pyGet "person" (.obj [])
  let pid ← p0.pyGet "id" .null
  let pname ← p0.pyGet "name" .null
  let pimg0 ← p0.pyGet "image" (.obj [])
  let pimg ← pimg0.pyGet "medium" .null
  let ch0 ← c.pyGet "character" (.obj [])
  let chid ← ch0.pyGet "id" .null
  let chname ← ch0.pyGet "name" .null
  .ok (.obj [("person", .obj [("id", pid), ("name", pname), ("image", pimg)]),
    ("character", .obj [("id", chid), ("name", chname)])])

/-- A `person`/`type` list item (show details crew, episode guest crew). -/
def processPersonTypeItem (c : Json) : Except PyError Json := do
  let p0 ← c.pyGet "person" (.obj [])
  let pid ← p0.pyGet "id" .null
  let pname ← p0.pyGet "name" .null
  let pimg0 ← p0.pyGet "image" (.obj [])
  let pimg ← pimg0.pyGet "medium" .null
  let t ← c.pyGet "type" .null
  .ok (.obj [("person", .obj [("id", pid), ("name", pname), ("image", pimg)]),
    ("type", t)])

/-- The return-dict of `get_episode_details` (fields in evaluation order). -/
def processEpisodeDetails (episode : Json) : Except PyError Json := do
  let idJ ← episode.pyGet "id" .null
  let nameJ ← episode.pyGet "name" .null
  let season ← episode.pyGet "season" .null
  let number ← episode.pyGet "number" .null
  let airdate ← episode.pyGet "airdate" .null
  let airtime ← episode.pyGet "airtime" .null
  let runtime ← episode.pyGet "runtime" .null
  let rating0 ← episode.pyGet "rating" (.obj [])
  let rating ← rating0.pyGet "average" .null
  let img0 ← episode.pyGet "image" (.obj [])
  let img ← img0.pyGet "original" .null
  let summaryJ ← episode.pyGet "summary" (.str "")
  let s1 ← summaryJ.pyReplace "<p>" ""
  let summary ← s1.pyReplace "</p>" ""
  let emb1 ← episode.pyGet "_embedded" (.obj [])
  let gc ← emb1.pyGet "guestcast" (.arr [])
  let guestCast ←
    match gc with
    | .arr items => mapItems processPersonCharacterItem items
    | _ => .error .typeError
  let emb2 ← episode.pyGet "_embedded" (.obj [])
  let gcr ← emb2.pyGet "guestcrew" (.arr [])
  let guestCrew ←
    match gcr with
    | .arr items => mapItems processPersonTypeItem items
    | _ => .error .typeError
  .ok (.obj [("id", idJ), ("name", nameJ), ("season", season), ("number", number),
    ("airdate", airdate), ("airtime", airtime), ("runtime", runtime),
    ("rating", rating), ("image", img), ("summary", summary),
    ("guestCast", .arr guestCast), ("guestCrew", .arr guestCrew)])

/-- The return-dict of `get_show_by_external_id`. -/
def processLookupShow (showJ : Json) : Except PyError Json := do
  let idJ ← showJ.pyGet "id" .null
  let title ← showJ.pyGet "name" .null
  let t ← showJ.pyGet "type" .null
  let lang ← showJ.pyGet "language" .null
  let genres ← showJ.pyGet "genres" (.arr [])
  let status ← showJ.pyGet "status" .null
  let runtime ← showJ.pyGet "runtime" .null
  let premiered ← showJ.pyGet "premiered" .null
  let rating0 ← showJ.pyGet "rating" (.obj [])
  let rating ← rating0.pyGet "average" .null
  let img0 ← showJ.pyGet "image" (.obj [])
  let img ← img0.pyGet "original" .null
  let summaryJ ← showJ.pyGet "summary" (.str "")
  let s1 ← summaryJ.pyReplace "<p>" ""
  let summary ← s1.pyReplace "</p>" ""
  .ok (.obj [("id", idJ), ("title", title), ("type", t), ("language", lang),
    ("genres", genres), ("status", status), ("runtime", runtime),
    ("premiered", premiered), ("rating", rating), ("image", img),
    ("summary", summary)])

/-- One item of the `get_web_schedule` projection (the schedule item plus
the `webChannel` name in the nested show). -/
def processWebScheduleItem (s : Json) : Except PyError Json := do
  let idJ ← s.pyGet "id" .null
  let airtime ← s.pyGet "airtime" .null
  let airstamp ← s.pyGet "airstamp" .null
  let runtime ← s.pyGet "runtime" .null
  let showJ ← s.pyGet "show" (.obj [])
  let sid ← showJ.pyGet "id" .null
  let sname ← showJ.pyGet "name" .null
  let stype ← showJ.pyGet "type" .null
  let slang ← showJ.pyGet "language" .null
  let sstatus ← showJ.pyGet "status" .null
  let simg0 ← showJ.pyGet "image" (.obj [])
  let simg ← simg0.pyGet "medium" .null
  let wc0 ← showJ.pyGet "webChannel" (.obj [])
  let wc ← wc0.pyGet "name" .null
  .ok (.obj
    [("id", idJ), ("airtime", airtime), ("airstamp", airstamp), ("runtime", runtime),
     ("show", .obj [("id", sid), ("name", sname), ("type", stype), ("language", slang),
                    ("status", sstatus), ("image", simg), ("webChannel", wc)])])

/-- One item of the `get_show_index` projection. -/
def processIndexShow (s : Json) : Except PyError Json := do
  let idJ ← s.pyGet "id" .null
  let title ← s.pyGet "name" .null
  let t ← s.pyGet "type" .null
  let lang ← s.pyGet "language" .null
  let genres ← s.pyGet "genres" (.arr [])
  let status ← s.pyGet "status" .null
  let runtime ← s.pyGet "runtime" .null
  let premiered ← s.pyGet "premiered" .null
  let rating0 ← s.pyGet "rating" (.obj [])
  let rating ← rating0.pyGet "average" .null
  let img0 ← s.pyGet "image" (.obj [])
  let img ← img0.pyGet "medium" .null
  .ok (.obj [("id", idJ), ("title", title), ("type", t), ("language", lang),
    ("genres", genres), ("status", status), ("runtime", runtime),
    ("premiered", premiered), ("rating", rating), ("image", img)])

/-- One item of the `get_people_index` projection. -/
def processIndexPerson (p : Json) : Except PyError Json := do
  let idJ ← p.pyGet "id" .null
  let nameJ ← p.pyGet "name" .null
  let img0 ← p.pyGet "image" (.obj [])
  let img ← img0.pyGet "medium" .null
  let birthday ← p.pyGet "birthday" .null
  let deathday ← p.pyGet "deathday" .null
  let gender ← p.pyGet "gender" .null
  let c0 ← p.pyGet "country" (.obj [])
  let country ← c0.pyGet "name" .null
  .ok (.obj [("id", idJ), ("name", nameJ), ("image", img), ("birthday", birthday),
    ("deathday", deathday), ("gender", gender), ("country", country)])

/-- One aka item of `get_show_details`. -/
def processAkaItem (aka : Json) : Except PyError Json := do
  let nameJ ← aka.pyGet "name" .null
  let c0 ← aka.pyGet "country" (.obj [])
  let country ← c0.pyGet "name" .null
  .ok (.obj [("name", nameJ), ("country", country)])

/-- One image item of `get_show_details`. -/
def processImageItem (img : Json) : Except PyError Json := do
  let idJ ← img.pyGet "id" .null
  let t ← img.pyGet "type" .null
  let res0 ← img.pyGet "resolutions" (.obj [])
  let orig ← res0.pyGet "original" (.obj [])
  let url ← orig.pyGet "url" .null
  .ok (.obj [("id", idJ), ("type", t), ("url", url)])

/-- One season item of `get_show_details`. -/
def processSeasonItem (s : Json) : Except PyError Json := do
  let idJ ← s.pyGet "id" .null
  let number ← s.pyGet "number" .null
  let order ← s.pyGet "episodeOrder" .null
  let pd ← s.pyGet "premiereDate" .null
  let ed ← s.pyGet "endDate" .null
  .ok (.obj [("id", idJ), ("number", number), ("episodeOrder", order),
    ("premiereDate", pd), ("endDate", ed)])

/-- Append an episode to its season bucket (Python dict insertion order;
keys are the stringified season values). -/
def addEpisodeToGroups (key : String) (ep : Json) :
    List (String × Json) → List (String × Json)
  | [] => [(key, Json.arr [ep])]
  | (k, v) :: rest =>
    if k = key then
      (k, match v with
          | .arr eps => Json.arr (eps ++ [ep])
          | other => other) :: rest
    else (k, v) :: addEpisodeToGroups key ep rest

/-- The `episodes_by_season` grouping loop of `get_show_details`. -/
def groupEpisodesAux (acc : List (String × Json)) :
    List Json → Except PyError (List (String × Json))
  | [] => .ok acc
  | ep :: rest => do
    let season ← ep.pyGet "season" .null
    groupEpisodesAux (addEpisodeToGroups season.pyStr ep acc) rest

/-- The return-dict of `get_show_details`, given the seven upstream
payloads. -/
def processShowDetails (showJ episodes cast crew akas images seasons : Json) :
    Except PyError Json := do
  let episodes_by_season ←
    if episodes.isTruthy then
      match episodes with
      | .arr eps => groupEpisodesAux [] eps
      | _ => .error .typeError
    else pure []
  let idJ ← showJ.pyGet "id" .null
  let title ← showJ.pyGet "name" .null
  let t ← showJ.pyGet "type" .null
  let lang ← showJ.pyGet "language" .null
  let genres ← showJ.pyGet "genres" (.arr [])
  let status ← showJ.pyGet "status" .null
  let runtime ← showJ.pyGet "runtime" .null
  let premiered ← showJ.pyGet "premiered" .null
  let ended ← showJ.pyGet "ended" .null
  let rating0 ← showJ.pyGet "rating" (.obj [])
  let rating ← rating0.pyGet "average" .null
  let network0 ← showJ.pyGet "network" (.obj [])
  let network ← network0.pyGet "name" .null
  let wc0 ← showJ.pyGet "webChannel" (.obj [])
  let webChannel ← wc0.pyGet "name" .null
  let summaryJ ← showJ.pyGet "summary" (.str "")
  let s1 ← summaryJ.pyReplace "<p>" ""
  let overview ← s1.pyReplace "</p>" ""
  let schedule ← showJ.pyGet "schedule" (.obj [])
  let castL ←
    match jsonOrEmptyList cast with
    | .arr items => mapItems processPersonCharacterItem items
    | _ => .error .typeError
  let crewL ←
    match jsonOrEmptyList crew with
    | .arr items => mapItems processPersonTypeItem items
    | _ => .error .typeError
  let akasL ←
    match jsonOrEmptyList akas with
    | .arr items => mapItems processAkaItem items
    | _ => .error .typeError
  let imagesL ←
    match jsonOrEmptyList images with
    | .arr items => mapItems processImageItem items
    | _ => .error .typeError
  let seasonsL ←
    match jsonOrEmptyList seasons with
    | .arr items => mapItems processSeasonItem items
    | _ => .error .typeError
  .ok (.obj [("id", idJ), ("title", title), ("type", t), ("language", lang),
    ("genres", genres), ("status", status), ("runtime", runtime),
    ("premiered", premiered), ("ended", ended), ("rating", rating),
    ("network", network), ("webChannel", webChannel), ("overview", overview),
    ("schedule", schedule), ("episodes", .obj episodes_by_season),
    ("cast", .arr castL), ("crew", .arr crewL), ("alternateNames", .arr akasL),
    ("images", .arr imagesL), ("seasons", .arr seasonsL)])

namespace ContentService

/-- Embedding of `ContentService.get_person_details`: three unconditional
upstream calls, no cache. -/
def get_person_details (env : Env) (person_id : Nat) (st : St) :
    Except PyError Json × St :=
  match _make_request env ("people/" ++ Nat.repr person_id) [] st with
  | (.error e, st1) => (.error e, st1)
  | (.ok person, st1) =>
    match _make_request env ("people/" ++ Nat.repr person_id ++ "/castcredits?embed=show")
        [] st1 with
    | (.error e, st2) => (.error e, st2)
    | (.ok cast_credits, st2) =>
      match _make_request env ("people/" ++ Nat.repr person_id ++ "/crewcredits?embed=show")
          [] st2 with
      | (.error e, st3) => (.error e, st3)
      | (.ok crew_credits, st3) =>
        match processPersonDetails person cast_credits crew_credits with
        | .error e => (.error e, st3)
        | .ok out => (.ok out, st3)

/-- Embedding of `ContentService.get_episode_details`: one unconditional
upstream call, no cache; a falsy payload returns `None`. -/
def get_episode_details (env : Env) (episode_id : Nat) (st : St) :
    Except PyError Json × St :=
  match _make_request env
      ("episodes/" ++ Nat.repr episode_id ++ "?embed[]=guestcast&embed[]=guestcrew") [] st with
  | (.error e, st1) => (.error e, st1)
  | (.ok episode, st1) =>
    if !episode.isTruthy then (.ok .null, st1)
    else
      match processEpisodeDetails episode with
      | .error e => (.error e, st1)
      | .ok out => (.ok out, st1)

/-- Embedding of `ContentService.get_show_by_external_id`: one
unconditional upstream call, no cache; a falsy payload returns `None`. -/
def get_show_by_external_id (env : Env) (external_id source : String) (st : St) :
    Except PyError Json × St :=
  match _make_request env ("lookup/shows?" ++ source ++ "=" ++ external_id) [] st with
  | (.error e, st1) => (.error e, st1)
  | (.ok showJ, st1) =>
    if !showJ.isTruthy then (.ok .null, st1)
    else
      match processLookupShow showJ with
      | .error e => (.error e, st1)
      | .ok out => (.ok out, st1)

/-- Embedding of `ContentService.get_show_updates`: one unconditional
upstream call, no cache, raw payload returned (`if since:` is Python
truthiness, so 0 is dropped like `None`). -/
def get_show_updates (env : Env) (since : Option Nat) (st : St) :
    Except PyError Json × St :=
  _make_request env "updates/shows"
    (match since with
     | some n => if n = 0 then [] else [("since", Nat.repr n)]
     | none => []) st

/-- Embedding of `ContentService.get_person_updates`: one unconditional
upstream call, no cache, raw payload returned. -/
def get_person_updates (env : Env) (since : Option Nat) (st : St) :
    Except PyError Json × St :=
  _make_request env "updates/people"
    (match since with
     | some n => if n = 0 then [] else [("since", Nat.repr n)]
     | none => []) st

/-- Embedding of `ContentService.get_web_schedule`: one unconditional
upstream call, no cache. -/
def get_web_schedule (env : Env) (date : Option String) (country : String) (st : St) :
    Except PyError Json × St :=
  match _make_request env "schedule/web"
      ([("country", country)] ++
        (match date with
         | some d => if d = "" then [] else [("date", d)]
         | none => [])) st with
  | (.error e, st1) => (.error e, st1)
  | (.ok schedule, st1) =>
    if !schedule.isTruthy then (.ok (.arr []), st1)
    else
      match schedule with
      | .arr items =>
        match mapItems processWebScheduleItem items with
        | .ok out => (.ok (.arr out), st1)
        | .error e => (.error e, st1)
      | _ => (.error .typeError, st1)

/-- Embedding of `ContentService.get_show_index`: one unconditional
upstream call (page in the endpoint string), no cache. -/
def get_show_index (env : Env) (page : Nat) (st : St) : Except PyError Json × St :=
  match _make_request env ("shows?page=" ++ Nat.repr page) [] st with
  | (.error e, st1) => (.error e, st1)
  | (.ok shows, st1) =>
    if !shows.isTruthy then (.ok (.arr []), st1)
    else
      match shows with
      | .arr items =>
        match mapItems processIndexShow items with
        | .ok out => (.ok (.arr out), st1)
        | .error e => (.error e, st1)
      | _ => (.error .typeError, st1)

/-- Embedding of `ContentService.get_people_index`: one unconditional
upstream call, no cache. -/
def get_people_index (env : Env) (page : Nat) (st : St) : Except PyError Json × St :=
  match _make_request env ("people?page=" ++ Nat.repr page) [] st with
  | (.error e, st1) => (.error e, st1)
  | (.ok people, st1) =>
    if !people.isTruthy then (.ok (.arr []), st1)
    else
      match people with
      | .arr items =>
        match mapItems processIndexPerson items with
        | .ok out => (.ok (.arr out), st1)
        | .error e => (.error e, st1)
      | _ => (.error .typeError, st1)

/-- Embedding of `ContentService.get_show_details`: seven unconditional
upstream calls, no cache; a falsy main payload returns `None`. -/
def get_show_details (env : Env) (show_id : Nat) (st : St) :
    Except PyError Json × St :=
  match _make_request env ("shows/" ++ Nat.repr show_id) [] st with
  | (.error e, st1) => (.error e, st1)
  | (.ok showJ, st1) =>
    if !showJ.isTruthy then (.ok .null, st1)
    else
      match _make_request env ("shows/" ++ Nat.repr show_id ++ "/episodes") [] st1 with
      | (.error e, st2) => (.error e, st2)
      | (.ok episodes, st2) =>
        match _make_request env ("shows/" ++ Nat.repr show_id ++ "/cast") [] st2 with
        | (.error e, st3) => (.error e, st3)
        | (.ok cast, st3) =>
          match _make_request env ("shows/" ++ Nat.repr show_id ++ "/crew") [] st3 with
          | (.error e, st4) => (.error e, st4)
          | (.ok crew, st4) =>
            match _make_request env ("shows/" ++ Nat.repr show_id ++ "/akas") [] st4 with
            | (.error e, st5) => (.error e, st5)
            | (.ok akas, st5) =>
              match _make_request env ("shows/" ++ Nat.repr show_id ++ "/images") [] st5 with
              | (.error e, st6) => (.error e, st6)
              | (.ok images, st6) =>
                match _make_request env ("shows/" ++ Nat.repr show_id ++ "/seasons")
                    [] st6 with
                | (.error e, st7) => (.error e, st7)
                | (.ok seasons, st7) =>
                  match processShowDetails showJ episodes cast crew akas images seasons with
                  | .error e => (.error e, st7)
                  | .ok out => (.ok out, st7)

end ContentService

/-! ### API layer: watchlist and register (over the relational store) -/

/-- A raised `HTTPException`. -/
structure HTTPError where
  status_code : Nat
  detail : String
deriving DecidableEq

/-- One row of the `watchlist` table. -/
structure WatchlistRow where
  user_id : Nat
  content_id : Nat
  watched_episodes : Nat
  is_completed : Bool
deriving DecidableEq

/-- The relational state the watchlist endpoint touches: the IDs of existing
`content` rows and the `watchlist` rows. -/
structure Db where
  contents : List Nat
  watchlist : List WatchlistRow
deriving DecidableEq

/-- The `WatchlistCreate` request schema. -/
structure WatchlistCreate where
  content_id : Nat
  watched_episodes : Nat
  is_completed : Bool
deriving DecidableEq

/-- Embedding of `POST /watchlist` (`add_to_watchlist`): 404 when the content row does not
exist, 400 when the (user, content) pair is already present, otherwise
insert and return the new row.  On an error the session is left untouched,
so the returned state equals the input state. -/
def add_to_watchlist (db : Db) (current_user_id : Nat) (item : WatchlistCreate) :
    Except HTTPError WatchlistRow × Db :=
  if !(db.contents.contains item.content_id) then
    (.error ⟨404, "Content not found"⟩, db)
  else if db.watchlist.any
      (fun r => r.user_id == current_user_id && r.content_id == item.content_id) then
    (.error ⟨400, "Content already in watchlist"⟩, db)
  else
    let row : WatchlistRow :=
      ⟨current_user_id, item.content_id, item.watched_episodes, item.is_completed⟩
    (.ok row, { db with watchlist := db.watchlist ++ [row] })

/-- One row of the `users` table. -/
structure UserRow where
  username : String
  email : String
  hashed_password : String
deriving DecidableEq

/-- The relational state the register endpoint touches. -/
structure AuthDb where
  users : List UserRow
deriving DecidableEq

/-- The `UserCreate` request schema. -/
structure UserCreate where
  username : String
  email : String
  password : String

/-- An exception raised inside the `try` block of `register`: either the
`HTTPException` raised by the endpoint itself or an internal database failure. -/
inductive RegExc where
  | http : Nat → String → RegExc
  | dbError : String → RegExc

/-- Python `str(e)`.  Starlette defines `HTTPException.__str__` as
`f"\x7bself.status_code\x7d: \x7bself.detail\x7d"`; a generic exception
stringifies to its message. -/
def pyStrExc : RegExc → String
  | .http code detail => Nat.repr code ++ ": " ++ detail
  | .dbError msg => msg

/-- Ambient behaviour of the register dependencies: the password hash and
whether `session.commit()` raises (an internal database failure). -/
structure RegEnv where
  hash : String → String
  commitError : Option String

/-- Embedding of `POST /auth/register`.  The whole handler body sits in a
`try/except Exception` whose handler rolls the session back and re-raises
`HTTPException(status_code=400, detail=str(e))` — including when `e` is the
duplicate-email/username `HTTPException` raised inside the `try`. -/
def registerBody (env : RegEnv) (db : AuthDb) (user : UserCreate) :
    Except RegExc (UserRow × AuthDb) :=
  if db.users.any (fun u => u.email == user.email) then
    .error (.http 400 "Email already registered")
  else if db.users.any (fun u => u.username == user.username) then
    .error (.http 400 "Username already taken")
  else
    match env.commitError with
    | some msg => .error (.dbError msg)
    | none =>
      .ok (⟨user.username, user.email, env.hash user.password⟩,
        ⟨db.users ++ [⟨user.username, user.email, env.hash user.password⟩]⟩)

def register (env : RegEnv) (db : AuthDb) (user : UserCreate) :
    Except HTTPError UserRow × AuthDb :=
  match registerBody env db user with
  | .ok (row, db1) => (.ok row, db1)
  | .error e => (.error ⟨400, pyStrExc e⟩, db)

/-!
### Decimal representation

`f"...:\x7bpage\x7d"` renders the page number with `str`, i.e. `Nat.repr`;
the cache-key injectivity claim needs `Nat.repr` to be injective, which we
derive from the `Nat.digits` correspondence.
-/

theorem toDigitsCore_eq_digits (b : Nat) (hb : 1 < b) :
    ∀ (fuel n : Nat) (ds : List Char), n ≠ 0 → n < b ^ fuel →
      Nat.toDigitsCore b fuel n ds = ((Nat.digits b n).reverse.map Nat.digitChar) ++ ds := by
  intro fuel
  induction fuel with
  | zero =>
    intro n ds hn hlt
    simp only [pow_zero] at hlt
    omega
  | succ fuel ih =>
    intro n ds hn hlt
    have hb0 : 0 < b := Nat.lt_of_lt_of_le Nat.zero_lt_one (Nat.le_of_lt hb)
    rw [Nat.digits_def' hb (Nat.pos_of_ne_zero hn)]
    by_cases hq : n / b = 0
    · simp [Nat.toDigitsCore, hq]
    · have hlt2 : n / b < b ^ fuel := by
        rw [Nat.div_lt_iff_lt_mul hb0]
        calc n < b ^ (fuel + 1) := hlt
          _ = b ^ fuel * b := by ring
      have hrec := ih (n / b) (Nat.digitChar (n % b) :: ds) hq hlt2
      simp [Nat.toDigitsCore, hq, hrec]

theorem toDigits_eq_digits (n : Nat) (hn : n ≠ 0) :
    Nat.toDigits 10 n = (Nat.digits 10 n).reverse.map Nat.digitChar := by
  have hfuel : n < 10 ^ (n + 1) := by
    calc n < 10 ^ n := Nat.lt_pow_self (by norm_num) n
      _ ≤ 10 ^ (n + 1) := Nat.pow_le_pow_right (by norm_num) (Nat.le_succ n)
  have := toDigitsCore_eq_digits 10 (by norm_num) (n + 1) n [] hn hfuel
  simpa [Nat.toDigits] using this

theorem digitChar_inj_fin : ∀ (a b : Fin 10),
    Nat.digitChar a.val = Nat.digitChar b.val → a = b := by decide

theorem digitChar_inj {a b : Nat} (ha : a < 10) (hb : b < 10)
    (h : Nat.digitChar a = Nat.digitChar b) : a = b := by
  have := digitChar_inj_fin ⟨a, ha⟩ ⟨b, hb⟩ h
  exact congrArg Fin.val this

theorem map_digitChar_inj : ∀ (l1 l2 : List Nat), (∀ x ∈ l1, x < 10) →
    (∀ x ∈ l2, x < 10) → l1.map Nat.digitChar = l2.map Nat.digitChar → l1 = l2 := by
  intro l1
  induction l1 with
  | nil =>
    intro l2 _ _ h
    cases l2 with
    | nil => rfl
    | cons b t => simp at h
  | cons a t ih =>
    intro l2 h1 h2 h
    cases l2 with
    | nil => simp at h
    | cons b t2 =>
      simp only [List.map_cons, List.cons.injEq] at h
      have ha : a < 10 := h1 a (List.mem_cons_self a t)
      have hb : b < 10 := h2 b (List.mem_cons_self b t2)
      have hab := digitChar_inj ha hb h.1
      have ht := ih t2 (fun x hx => h1 x (List.mem_cons_of_mem a hx))
        (fun x hx => h2 x (List.mem_cons_of_mem b hx)) h.2
      rw [hab, ht]

theorem nat_repr_inj {m n : Nat} (h : Nat.repr m = Nat.repr n) : m = n := by
  have hd : Nat.toDigits 10 m = Nat.toDigits 10 n := by
    have := congrArg String.data h
    simpa [Nat.repr, List.asString] using this
  by_cases hm : m = 0
  · by_cases hn : n = 0
    · rw [hm, hn]
    · exfalso
      rw [hm, toDigits_eq_digits n hn] at hd
      have h0 : Nat.toDigits 10 0 = ['0'] := by decide
      rw [h0] at hd
      cases hrev : (Nat.digits 10 n).reverse with
      | nil => rw [hrev] at hd; simp at hd
      | cons d rest =>
        rw [hrev] at hd
        simp only [List.map_cons, List.cons.injEq] at hd
        have hrest : rest = [] := by
          have := hd.2
          cases rest with
          | nil => rfl
          | cons x xs => simp at this
        have hdlt : d < 10 := by
          apply Nat.digits_lt_base (by norm_num)
          have : d ∈ (Nat.digits 10 n).reverse := by rw [hrev]; exact List.mem_cons_self d rest
          exact List.mem_reverse.mp this
        have hd0 : d = 0 := by
          have : Nat.digitChar d = Nat.digitChar 0 := by
            rw [← hd.1]; rfl
          exact digitChar_inj hdlt (by norm_num) this
        have hdig : Nat.digits 10 n = [0] := by
          have : (Nat.digits 10 n).reverse = [0] := by rw [hrev, hrest, hd0]
          have h2 := congrArg List.reverse this
          simpa using h2
        have := Nat.ofDigits_digits 10 n
        rw [hdig] at this
        simp [Nat.ofDigits] at this
        exact hn this.symm
  · by_cases hn : n = 0
    · exfalso
      rw [hn, toDigits_eq_digits m hm] at hd
      have h0 : Nat.toDigits 10 0 = ['0'] := by decide
      rw [h0] at hd
      cases hrev : (Nat.digits 10 m).reverse with
      | nil => rw [hrev] at hd; simp at hd
      | cons d rest =>
        rw [hrev] at hd
        simp only [List.map_cons, List.cons.injEq] at hd
        have hrest : rest = [] := by
          have := hd.2
          cases rest with
          | nil => rfl
          | cons x xs => simp at this
        have hdlt : d < 10 := by
          apply Nat.digits_lt_base (by norm_num)
          have : d ∈ (Nat.digits 10 m).reverse := by rw [hrev]; exact List.mem_cons_self d rest
          exact List.mem_reverse.mp this
        have hd0 : d = 0 := by
          have : Nat.digitChar d = Nat.digitChar 0 := by
            rw [hd.1]; rfl
          exact digitChar_inj hdlt (by norm_num) this
        have hdig : Nat.digits 10 m = [0] := by
          have : (Nat.digits 10 m).reverse = [0] := by rw [hrev, hrest, hd0]
          have h2 := congrArg List.reverse this
          simpa using h2
        have := Nat.ofDigits_digits 10 m
        rw [hdig] at this
        simp [Nat.ofDigits] at this
        exact hm this.symm
    · rw [toDigits_eq_digits m hm, toDigits_eq_digits n hn] at hd
      have hrev : (Nat.digits 10 m).reverse = (Nat.digits 10 n).reverse := by
        apply map_digitChar_inj
        · intro x hx
          exact Nat.digits_lt_base (by norm_num) (List.mem_reverse.mp hx)
        · intro x hx
          exact Nat.digits_lt_base (by norm_num) (List.mem_reverse.mp hx)
        · exact hd
      have hdig : Nat.digits 10 m = Nat.digits 10 n := by
        have := congrArg List.reverse hrev
        simpa using this
      calc m = Nat.ofDigits 10 (Nat.digits 10 m) := (Nat.ofDigits_digits 10 m).symm
        _ = Nat.ofDigits 10 (Nat.digits 10 n) := by rw [hdig]
        _ = n := Nat.ofDigits_digits 10 n

theorem nat_repr_ne_empty (n : Nat) : Nat.repr n ≠ "" := by
  intro h
  have hlen := congrArg String.length h
  by_cases hn : n = 0
  · rw [hn] at h
    exact absurd h (by decide)
  · rw [Nat.repr, toDigits_eq_digits n hn] at hlen
    have hne : Nat.digits 10 n ≠ [] := Nat.digits_ne_nil_iff_ne_zero.mpr hn
    have : (Nat.digits 10 n).reverse.map Nat.digitChar ≠ [] := by
      simp [hne]
    rw [String.length, List.asString] at hlen
    simp at hlen
    exact this (by simpa using hlen)

/-! ### The serializer never produces the empty string -/

theorem string_append_ne_empty_left {a : String} (b : String) (ha : a ≠ "") :
    a ++ b ≠ "" := by
  intro h
  apply ha
  have hd := congrArg String.data h
  rw [String.data_append] at hd
  have hnil : a.data = [] := (List.append_eq_nil.mp hd).1
  cases a with
  | mk data =>
    simp only [String.data] at hnil
    rw [hnil]

theorem string_append_ne_empty_right (a : String) {b : String} (hb : b ≠ "") :
    a ++ b ≠ "" := by
  intro h
  apply hb
  have hd := congrArg String.data h
  rw [String.data_append] at hd
  have hnil : b.data = [] := (List.append_eq_nil.mp hd).2
  cases b with
  | mk data =>
    simp only [String.data] at hnil
    rw [hnil]

theorem int_toString_ne_empty (n : Int) : toString n ≠ "" := by
  cases n with
  | ofNat m =>
    show Int.repr (.ofNat m) ≠ ""
    simpa [Int.repr] using nat_repr_ne_empty m
  | negSucc m =>
    show Int.repr (.negSucc m) ≠ ""
    simp only [Int.repr]
    exact string_append_ne_empty_left _ (by decide)

theorem serialize_ne_empty (j : Json) : Json.serialize j ≠ "" := by
  cases j with
  | null => decide
  | bool b => cases b <;> decide
  | num n => simpa [Json.serialize] using int_toString_ne_empty n
  | str s =>
    simp only [Json.serialize]
    refine string_append_ne_empty_right _ ?_
    decide
  | arr es =>
    simp only [Json.serialize]
    refine string_append_ne_empty_right _ ?_
    decide
  | obj fs =>
    simp only [Json.serialize]
    refine string_append_ne_empty_right _ ?_
    decide

/-! ### Behaviour of the cache store and the retrying client -/

/-- The model `get_cached_data` returns the stored deserialized value exactly when the
key is present (every stored serialization is a non-empty string), and
always bumps the read counter. -/
theorem get_cached_data_eq (st : St) (key : String) :
    RedisService.get_cached_data st key =
      ((lookupCache st.cache key).map CacheEntry.value,
       { st with cacheGets := st.cacheGets + 1 }) := by
  unfold RedisService.get_cached_data
  cases h : lookupCache st.cache key with
  | none => simp
  | some e => simp [serialize_ne_empty e.value]

/-- The model `_make_request` is a function of the environment only: it returns a fixed
result and bumps the upstream counter by a fixed number of attempts
(1 on success, 3 — the whole tenacity budget — on persistent failure, after
which the surfaced exception is `RetryError`, never the 429 translation). -/
theorem make_request_spec (env : Env) (endpoint : String)
    (params : List (String × String)) :
    ∃ r k, 0 < k ∧ k ≤ 3 ∧ ∀ st : St,
      ContentService._make_request env endpoint params st =
        (r, { st with upstreamCalls := st.upstreamCalls + k }) := by
  cases h : env.upstream endpoint params with
  | success body =>
    refine ⟨.ok body, 1, by omega, by omega, fun st => ?_⟩
    simp [ContentService._make_request, retryCall, attemptRequest, h]
  | httpError s =>
    refine ⟨.error (.retryError (.httpStatusError s)), 3, by omega, by omega, fun st => ?_⟩
    simp [ContentService._make_request, retryCall, attemptRequest, h]
  | transportError =>
    refine ⟨.error (.retryError .transportError), 3, by omega, by omega, fun st => ?_⟩
    simp [ContentService._make_request, retryCall, attemptRequest, h]

/-! ### Behaviour of the search path -/

/-- Field projection used in theorem statements (`d["results"]`, with `null`
for a missing key or a non-dict). -/
def Json.field (j : Json) (key : String) : Json :=
  match j with
  | .obj fields => (lookupField fields key).getD .null
  | _ => .null

theorem field_truthy_imp_truthy {v : Json} {key : String}
    (h : (Json.field v key).isTruthy = true) : v.isTruthy = true := by
  cases v with
  | obj fs =>
    cases fs with
    | nil => simp [Json.field, lookupField, Json.isTruthy] at h
    | cons kv rest => simp [Json.isTruthy]
  | null => simp [Json.field, Json.isTruthy] at h
  | bool b => simp [Json.field, Json.isTruthy] at h
  | num n => simp [Json.field, Json.isTruthy] at h
  | str s => simp [Json.field, Json.isTruthy] at h
  | arr es => simp [Json.field, Json.isTruthy] at h

/-- The state transformation a `searchFetch` applies: bump the upstream
counter by the number of attempts, then possibly write one cache entry. -/
def applyW (w : Option Json) (k : Nat) (key : String) (st : St) : St :=
  match w with
  | some v =>
    RedisService.set_cached_data { st with upstreamCalls := st.upstreamCalls + k } key v 3600
  | none => { st with upstreamCalls := st.upstreamCalls + k }

theorem applyW_upstreamCalls (w : Option Json) (k : Nat) (key : String) (st : St) :
    (applyW w k key st).upstreamCalls = st.upstreamCalls + k := by
  cases w <;> simp [applyW, RedisService.set_cached_data]

theorem applyW_cacheSets_none (k : Nat) (key : String) (st : St) :
    (applyW none k key st).cacheSets = st.cacheSets := rfl

/-- The model `searchFetch` is determined by the environment: a fixed result `r`, a
fixed number `k` of upstream attempts, and a fixed optional cache write `w`
(present exactly when the fetched result list is non-empty). -/
theorem searchFetch_spec (env : Env) (query : String) (ct lang : Option String)
    (page : Nat) (key : String) :
    ∃ (r : Except PyError Json) (k : Nat) (w : Option Json),
      0 < k ∧
      (∀ st : St, ContentService.searchFetch env query ct lang page key st =
        (r, applyW w k key st)) ∧
      (∀ v, w = some v → r = .ok v ∧ (Json.field v "results").isTruthy = true) ∧
      (w = none → ∀ v, r = .ok v → (Json.field v "results").isTruthy = false) := by
  obtain ⟨r0, k, hk0, hk3, hst⟩ := make_request_spec env "search/shows" [("q", query)]
  cases r0 with
  | error e =>
    refine ⟨.error e, k, none, hk0, fun st => ?_, by simp, by simp⟩
    unfold ContentService.searchFetch
    rw [hst st]
    simp [applyW]
  | ok response =>
    cases htr : response.isTruthy with
    | false =>
      refine ⟨.ok (emptySearchResponse page), k, none, hk0, fun st => ?_, by simp, ?_⟩
      · unfold ContentService.searchFetch
        rw [hst st]
        simp [htr, applyW]
      · intro _ v hv
        cases hv
        simp [emptySearchResponse, Json.field, lookupField, Json.isTruthy]
    | true =>
      cases response with
      | arr items =>
        cases hpr : processSearchResults ct lang items with
        | error e =>
          refine ⟨.error e, k, none, hk0, fun st => ?_, by simp, by simp⟩
          unfold ContentService.searchFetch
          rw [hst st]
          simp [htr, hpr, applyW]
        | ok processed =>
          cases hemp : processed.isEmpty with
          | true =>
            refine ⟨.ok (.obj
              [("results", .arr processed), ("page", .num page),
               ("total_pages", .num (if processed.isEmpty then 0 else 1)),
               ("total_results", .num processed.length)]), k, none, hk0,
              fun st => ?_, by simp, ?_⟩
            · unfold ContentService.searchFetch
              rw [hst st]
              simp [htr, hpr, hemp, applyW]
            · intro _ v hv
              cases hv
              simp [Json.field, lookupField, Json.isTruthy, hemp]
          | false =>
            refine ⟨.ok (.obj
              [("results", .arr processed), ("page", .num page),
               ("total_pages", .num (if processed.isEmpty then 0 else 1)),
               ("total_results", .num processed.length)]), k, some (.obj
              [("results", .arr processed), ("page", .num page),
               ("total_pages", .num (if processed.isEmpty then 0 else 1)),
               ("total_results", .num processed.length)]), hk0,
              fun st => ?_, ?_, by simp⟩
            · unfold ContentService.searchFetch
              rw [hst st]
              simp [htr, hpr, hemp, applyW]
            · intro v hv
              cases hv
              refine ⟨rfl, ?_⟩
              simp [Json.field, lookupField, Json.isTruthy, hemp]
      | null =>
        simp [Json.isTruthy] at htr
      | bool b =>
        refine ⟨.error .typeError, k, none, hk0, fun st => ?_, by simp, by simp⟩
        unfold ContentService.searchFetch
        rw [hst st]
        simp [htr, applyW]
      | num n =>
        refine ⟨.error .typeError, k, none, hk0, fun st => ?_, by simp, by simp⟩
        unfold ContentService.searchFetch
        rw [hst st]
        simp [htr, applyW]
      | str s =>
        refine ⟨.error .typeError, k, none, hk0, fun st => ?_, by simp, by simp⟩
        unfold ContentService.searchFetch
        rw [hst st]
        simp [htr, applyW]
      | obj fs =>
        refine ⟨.error .typeError, k, none, hk0, fun st => ?_, by simp, by simp⟩
        unfold ContentService.searchFetch
        rw [hst st]
        simp [htr, applyW]

/-- The short-query guard is false exactly when the trimmed query has at
least two characters. -/
theorem search_guard_false {q : String} (h : 2 ≤ (pyStrip q).length) :
    ((q = "" : Bool) || ((pyStrip q).length < 2 : Bool)) = false := by
  have hq : q ≠ "" := by
    intro hq0
    rw [hq0] at h
    exact absurd h (by decide)
  simp only [Bool.or_eq_false_iff, decide_eq_false_iff_not]
  exact ⟨hq, by omega⟩

/-! ### Concrete fixtures -/

/-- The empty initial state: empty cache, all counters zero. -/
def st0 : St := ⟨[], 0, 0, 0⟩

/-- An upstream that answers every request with an empty JSON array. -/
def envEmpty : Env := ⟨fun _ _ => .success (.arr [])⟩

/-- An upstream that always answers 429 Too Many Requests. -/
def env429 : Env := ⟨fun _ _ => .httpError 429⟩

/-- An upstream that always answers 500 Internal Server Error. -/
def env500 : Env := ⟨fun _ _ => .httpError 500⟩

/-- A typical TVMaze show object. -/
def showPayload : Json := .obj
  [("id", .num 1), ("name", .str "Breaking In"), ("summary", .str "<p>Fun.</p>"),
   ("image", .obj [("medium", .str "m.jpg"), ("original", .str "o.jpg")]),
   ("premiered", .str "2011-04-06"), ("rating", .obj [("average", .num 7)]),
   ("genres", .arr [.str "Comedy"]), ("status", .str "Ended"), ("runtime", .num 30),
   ("type", .str "Scripted"), ("language", .str "English")]

/-- An upstream whose search endpoint returns one result. -/
def envSearch : Env := ⟨fun endpoint _ =>
  if endpoint = "search/shows" then
    .success (.arr [.obj [("score", .num 1), ("show", showPayload)]])
  else .httpError 404⟩

/-- The processed search response for `showPayload`. -/
def searchV1 : Json := .obj
  [("results", .arr [.obj
      [("id", .num 1), ("title", .str "Breaking In"), ("overview", .str "Fun."),
       ("poster_url", .str "m.jpg"), ("backdrop_url", .str "o.jpg"),
       ("release_date", .str "2011-04-06"), ("rating", .num 7),
       ("genres", .arr [.str "Comedy"]), ("status", .str "Ended"),
       ("runtime", .num 30), ("type", .str "scripted"), ("language", .str "english")]]),
   ("page", .num 1), ("total_pages", .num 1), ("total_results", .num 1)]

/-- The state after one successful cold search for "breaking". -/
def stSearch1 : St := ⟨[("search:breaking:all:all:1", ⟨searchV1, 3600⟩)], 1, 1, 1⟩

/-- A TVMaze `shows/123` payload with no null fields. -/
def detailPayload : Json := .obj
  [("id", .num 123), ("name", .str "Show"), ("summary", .str "<p>S.</p>"),
   ("image", .obj [("medium", .str "m"), ("original", .str "o")]),
   ("premiered", .str "2010-01-01"), ("rating", .obj [("average", .num 8)]),
   ("genres", .arr [.str "Drama"]), ("status", .str "Running"), ("runtime", .num 60),
   ("network", .obj [("name", .str "NBC")]), ("schedule", .obj [("time", .str "21:00")]),
   ("webChannel", .obj [("name", .str "W")]), ("externals", .obj [("imdb", .str "tt1")]),
   ("updated", .num 5)]

/-- The same payload for a web-only show: `network` is `null` — as TVMaze
actually returns for every show without a broadcast network. -/
def nullNetworkPayload : Json := .obj
  [("id", .num 123), ("name", .str "Show"), ("summary", .str "<p>S.</p>"),
   ("image", .obj [("medium", .str "m"), ("original", .str "o")]),
   ("premiered", .str "2010-01-01"), ("rating", .obj [("average", .num 8)]),
   ("genres", .arr [.str "Drama"]), ("status", .str "Running"), ("runtime", .num 60),
   ("network", .null), ("schedule", .obj [("time", .str "21:00")]),
   ("webChannel", .obj [("name", .str "W")]), ("externals", .obj [("imdb", .str "tt1")]),
   ("updated", .num 5)]

/-- An upstream serving `detailPayload` for show 123. -/
def envDetail : Env := ⟨fun endpoint _ =>
  if endpoint = "shows/123" then .success detailPayload else .httpError 404⟩

/-- The normalized document for `detailPayload`. -/
def contentNormalized123 : Json := .obj
  [("id", .num 123), ("title", .str "Show"), ("overview", .str "S."),
   ("poster_url", .str "m"), ("backdrop_url", .str "o"),
   ("release_date", .str "2010-01-01"), ("rating", .num 8),
   ("genres", .arr [.str "Drama"]), ("status", .str "Running"), ("runtime", .num 60),
   ("type", .str "tv"), ("network", .str "NBC"),
   ("schedule", .obj [("time", .str "21:00")]), ("web_channel", .str "W"),
   ("externals", .obj [("imdb", .str "tt1")]), ("updated", .num 5)]

/-- The state after one successful cold fetch of show 123. -/
def st123 : St := ⟨[("content:tv:123", ⟨contentNormalized123, 86400⟩)], 1, 1, 1⟩

/-- A truthy credits document. -/
def creditsDoc : Json := .obj [("cast", .arr []), ("crew", .arr [])]

/-- A state with a cached credits entry for show 123. -/
def stCredits : St := ⟨[("credits:tv:123", ⟨creditsDoc, 86400⟩)], 0, 0, 0⟩

/-- A state with a cached similar-content entry for show 123, page 1. -/
def stSimilar : St := ⟨[("similar:tv:123:1", ⟨searchV1, 3600⟩)], 0, 0, 0⟩

/-- A truthy trending document. -/
def trendingDoc : Json := .arr [.obj [("id", .num 1)]]

/-- A state with a cached trending entry. -/
def stTrending : St := ⟨[("trending:tv:day", ⟨trendingDoc, 3600⟩)], 0, 0, 0⟩

/-- A truthy genres document. -/
def genresDoc : Json := .arr [.obj [("id", .num 0), ("name", .str "Drama")]]

/-- A state with a cached genres entry. -/
def stGenres : St := ⟨[("genres:tv", ⟨genresDoc, 86400⟩)], 0, 0, 0⟩

/-! ### Claims -/

/-- C7: a search query shorter than 2 characters after trimming returns the
fixed empty response `{"results": [], "page": page, "total_pages": 0,
"total_results": 0}` and leaves the state exactly unchanged: no upstream
call, no cache read, no cache write. -/
theorem short_query_short_circuits (env : Env) (query : String)
    (content_type language : Option String) (page : Nat) (st : St)
    (h : (pyStrip query).length < 2) :
    ContentService.search_content env query content_type language page st =
      (.ok (emptySearchResponse page), st) := by
  unfold ContentService.search_content
  simp [h]

/-- C7 witness: the one-character query "a". -/
theorem short_query_short_circuits_witness :
    (pyStrip "a").length < 2 ∧
    ContentService.search_content envEmpty "a" none none 1 st0 =
      (.ok (emptySearchResponse 1), st0) :=
  ⟨by decide, short_query_short_circuits envEmpty "a" none none 1 st0 (by decide)⟩

/-- C4 (code bug): an upstream that answers 429 on every attempt is tried
exactly 3 times (the local budget is respected), but the error surfaced to
the caller is `tenacity.RetryError` wrapping the `HTTPStatusError` — the
identical shape produced by a persistent 500 — and not the distinct
`Exception("Rate limit exceeded. Please try again later.")`: the retry
decorator (default `reraise=False`) wraps the exception before the
`except httpx.HTTPStatusError` clause can match it, so the 429 translation
branch is unreachable. -/
theorem rate_limited_surfaces_as_retry_error :
    ContentService._make_request env429 "search/shows" [("q", "br")] st0 =
      (.error (.retryError (.httpStatusError 429)), { st0 with upstreamCalls := 3 }) ∧
    ContentService._make_request env500 "search/shows" [("q", "br")] st0 =
      (.error (.retryError (.httpStatusError 500)), { st0 with upstreamCalls := 3 }) ∧
    PyError.retryError (.httpStatusError 429) ≠
      PyError.exception "Rate limit exceeded. Please try again later." :=
  ⟨rfl, rfl, by decide⟩

/-- C6 (code bug): the `get_content_by_id` normalization raises
`AttributeError` on a payload whose `network` is `null` (every web-only
show), and likewise on a `null` summary; with those fields non-null the
same payload normalizes fine. -/
theorem normalize_crashes_on_null_fields :
    processContent nullNetworkPayload = .error .attributeError ∧
    processContent (.obj [("id", .num 5), ("name", .str "X"), ("summary", .null)]) =
      .error .attributeError ∧
    processContent detailPayload = .ok contentNormalized123 :=
  ⟨rfl, rfl, rfl⟩

/-- C2 (code bug): after show 123 is fetched and cached, clearing the cache
for ID 123 leaves the state completely unchanged (`redis.delete` receives
the literal key `content:*:123`, which does not exist — Redis `DEL` does no
glob matching), so the subsequent fetch of 123 is still served from the
cache: one extra cache read, zero extra upstream calls. -/
theorem clear_content_cache_by_id_is_noop :
    ContentService.get_content_by_id envDetail "123" "tv" st0 =
      (.ok contentNormalized123, st123) ∧
    ContentService.clear_content_cache st123 (some "123") = st123 ∧
    ContentService.get_content_by_id envDetail "123" "tv"
        (ContentService.clear_content_cache st123 (some "123")) =
      (.ok contentNormalized123, { st123 with cacheGets := st123.cacheGets + 1 }) :=
  ⟨rfl, rfl, rfl⟩

/-- C1 counterexample: a first call that returns normally with an empty
result list is not cached, so an identical second call within the TTL
window performs another upstream call (upstreamCalls 1 → 2) instead of
zero, and nothing is ever served from the cache store. -/
theorem search_repeat_not_cached_on_empty :
    ContentService.search_content envEmpty "breaking" none none 1 st0 =
      (.ok (emptySearchResponse 1), ⟨[], 1, 0, 1⟩) ∧
    ContentService.search_content envEmpty "breaking" none none 1 ⟨[], 1, 0, 1⟩ =
      (.ok (emptySearchResponse 1), ⟨[], 2, 0, 2⟩) ∧
    (⟨[], 2, 0, 2⟩ : St).upstreamCalls ≠ (⟨[], 1, 0, 1⟩ : St).upstreamCalls :=
  ⟨rfl, rfl, by decide⟩

/-- C5 counterexample: `get_schedule` calls the upstream client without
computing any cache key or consulting the cache store first — after the
call the cache-read counter is still 0 while an upstream call happened. -/
theorem get_schedule_skips_cache :
    ContentService.get_schedule envEmpty "US" none st0 =
      (.ok (.arr []), { st0 with upstreamCalls := 1 }) ∧
    ({ st0 with upstreamCalls := 1 } : St).cacheGets = 0 ∧
    ({ st0 with upstreamCalls := 1 } : St).upstreamCalls = 1 :=
  ⟨rfl, rfl, rfl⟩

/-- After a `searchFetch` that returned `.ok v` with a truthy result list,
the value sits in the cache under the search key, and an identical call on
the resulting state is a pure cache hit. -/
theorem search_hit_after_fetch (env : Env) (query : String)
    (ct lang : Option String) (page : Nat) (st' st1 : St) (v : Json)
    (h : ContentService.searchFetch env query ct lang page
      (searchCacheKey query ct lang page) st' = (.ok v, st1))
    (hres : (Json.field v "results").isTruthy = true)
    (hguard : ((query = "" : Bool) || ((pyStrip query).length < 2 : Bool)) = false) :
    ContentService.search_content env query ct lang page st1 =
      (.ok v, { st1 with cacheGets := st1.cacheGets + 1 }) := by
  obtain ⟨r, k, w, hk, hfetch, hsome, hnone⟩ :=
    searchFetch_spec env query ct lang page (searchCacheKey query ct lang page)
  rw [hfetch st'] at h
  simp only [Prod.mk.injEq] at h
  obtain ⟨hr, hst1⟩ := h
  cases w with
  | none =>
    have hfalse := hnone rfl v hr
    rw [hfalse] at hres
    exact absurd hres (by decide)
  | some v0 =>
    obtain ⟨hr0, htr⟩ := hsome v0 rfl
    rw [hr0] at hr
    injection hr with hv0
    subst hv0
    subst hst1
    unfold ContentService.search_content
    rw [if_neg (by simp [hguard])]
    rw [get_cached_data_eq]
    have hl : lookupCache
        (applyW (some v0) k (searchCacheKey query ct lang page) st').cache
        (searchCacheKey query ct lang page) = some ⟨v0, 3600⟩ := by
      simp [applyW, RedisService.set_cached_data, lookupCache]
    rw [hl]
    simp only [Option.map_some']
    rw [if_pos (field_truthy_imp_truthy hres)]

/-- C1 amended: when a call to `search_content` returns normally with a
NON-EMPTY result list, an identical call within the TTL window returns the
identical value served from the cache store, performing zero upstream calls
and zero cache writes (only one extra cache read).  (The unamended claim
fails for empty result lists, which are never cached — see the
counterexample.) -/
theorem search_second_call_served_from_cache (env : Env) (query : String)
    (ct lang : Option String) (page : Nat) (st st1 : St) (v : Json)
    (h : ContentService.search_content env query ct lang page st = (.ok v, st1))
    (hres : (Json.field v "results").isTruthy = true) :
    ContentService.search_content env query ct lang page st1 =
      (.ok v, { st1 with cacheGets := st1.cacheGets + 1 }) := by
  cases hguard : ((query = "" : Bool) || ((pyStrip query).length < 2 : Bool)) with
  | true =>
    unfold ContentService.search_content at h
    rw [if_pos hguard] at h
    simp only [Prod.mk.injEq, Except.ok.injEq] at h
    obtain ⟨hv, _⟩ := h
    rw [← hv] at hres
    simp [emptySearchResponse, Json.field, lookupField, Json.isTruthy] at hres
  | false =>
    unfold ContentService.search_content at h
    rw [if_neg (by simp [hguard])] at h
    rw [get_cached_data_eq] at h
    cases hc : lookupCache st.cache (searchCacheKey query ct lang page) with
    | some e =>
      rw [hc] at h
      simp only [Option.map_some'] at h
      cases ht : e.value.isTruthy with
      | true =>
        rw [if_pos ht] at h
        simp only [Prod.mk.injEq, Except.ok.injEq] at h
        obtain ⟨hv, hst1⟩ := h
        subst hv
        subst hst1
        unfold ContentService.search_content
        rw [if_neg (by simp [hguard])]
        rw [get_cached_data_eq]
        rw [show ({ st with cacheGets := st.cacheGets + 1 } : St).cache = st.cache from rfl,
          hc]
        simp only [Option.map_some']
        rw [if_pos ht]
      | false =>
        rw [if_neg (by simp [ht])] at h
        exact search_hit_after_fetch env query ct lang page _ st1 v h hres hguard
    | none =>
      rw [hc] at h
      simp only [Option.map_none'] at h
      exact search_hit_after_fetch env query ct lang page _ st1 v h hres hguard

/-- C1 amended witness: the cold search for "breaking" against `envSearch`
returns `searchV1` with a non-empty result list; the repeat call is served
from the cache. -/
theorem search_second_call_served_from_cache_witness :
    ContentService.search_content envSearch "breaking" none none 1 stSearch1 =
      (.ok searchV1, { stSearch1 with cacheGets := stSearch1.cacheGets + 1 }) :=
  search_second_call_served_from_cache envSearch "breaking" none none 1 st0 stSearch1
    searchV1 rfl rfl

/-- The model `get_schedule` only ever bumps the upstream counter: it touches neither
the cache contents nor the cache counters. -/
theorem get_schedule_state (env : Env) (country : String) (date : Option String)
    (st : St) :
    ∃ k, 0 < k ∧ (ContentService.get_schedule env country date st).2 =
      { st with upstreamCalls := st.upstreamCalls + k } := by
  obtain ⟨r, k, hk0, hk3, hst⟩ := make_request_spec env "schedule"
    ([("country", country)] ++
      (match date with
       | some d => if d = "" then [] else [("date", d)]
       | none => []))
  refine ⟨k, hk0, ?_⟩
  unfold ContentService.get_schedule
  rw [hst st]
  cases r with
  | error e => rfl
  | ok schedule =>
    cases htr : schedule.isTruthy with
    | false => simp [htr]
    | true =>
      cases schedule with
      | arr items =>
        simp only [htr]
        cases hmi : mapItems processScheduleItem items with
        | ok out => simp [hmi]
        | error e => simp [hmi]
      | null => simp [Json.isTruthy] at htr
      | bool b => simp [htr]
      | num n => simp [htr]
      | str s => simp [htr]
      | obj fs => simp [htr]

/-- The model `search_people` only ever bumps the upstream counter: it touches neither
the cache contents nor the cache counters. -/
theorem search_people_state (env : Env) (query : String) (st : St) :
    ∃ k, 0 < k ∧ (ContentService.search_people env query st).2 =
      { st with upstreamCalls := st.upstreamCalls + k } := by
  obtain ⟨r, k, hk0, hk3, hst⟩ := make_request_spec env "search/people" [("q", query)]
  refine ⟨k, hk0, ?_⟩
  unfold ContentService.search_people
  rw [hst st]
  cases r with
  | error e => rfl
  | ok people =>
    cases htr : people.isTruthy with
    | false => simp [htr]
    | true =>
      cases people with
      | arr items =>
        simp only [htr]
        cases hmi : mapItems processPersonItem items with
        | ok out => simp [hmi]
        | error e => simp [hmi]
      | null => simp [Json.isTruthy] at htr
      | bool b => simp [htr]
      | num n => simp [htr]
      | str s => simp [htr]
      | obj fs => simp [htr]

/-- The operation serves a truthy cached value stored under `key` verbatim:
one extra cache read and nothing else — no upstream call, no cache write,
no cache change. -/
def cacheFirstHit (key : String) (f : St → Except PyError Json × St) : Prop :=
  ∀ st e, lookupCache st.cache key = some e → e.value.isTruthy = true →
    f st = (.ok e.value, { st with cacheGets := st.cacheGets + 1 })

/-- The operation never reads or writes the cache (contents and both
counters unchanged) and calls the upstream client on every invocation. -/
def neverTouchesCache (f : St → Except PyError Json × St) : Prop :=
  ∀ st, (f st).2.cache = st.cache ∧ (f st).2.cacheGets = st.cacheGets ∧
    (f st).2.cacheSets = st.cacheSets ∧ st.upstreamCalls < (f st).2.upstreamCalls

theorem neverTouchesCache_of_state {f : St → Except PyError Json × St}
    (h : ∀ st, ∃ k, 0 < k ∧
      (f st).2 = { st with upstreamCalls := st.upstreamCalls + k }) :
    neverTouchesCache f := by
  intro st
  obtain ⟨k, hk, h2⟩ := h st
  rw [h2]
  refine ⟨rfl, rfl, rfl, ?_⟩
  show st.upstreamCalls < st.upstreamCalls + k
  omega

/-- The model `get_web_schedule` only ever bumps the upstream counter. -/
theorem get_web_schedule_state (env : Env) (date : Option String) (country : String)
    (st : St) :
    ∃ k, 0 < k ∧ (ContentService.get_web_schedule env date country st).2 =
      { st with upstreamCalls := st.upstreamCalls + k } := by
  obtain ⟨r, k, hk0, hk3, hst⟩ := make_request_spec env "schedule/web"
    ([("country", country)] ++
      (match date with
       | some d => if d = "" then [] else [("date", d)]
       | none => []))
  refine ⟨k, hk0, ?_⟩
  unfold ContentService.get_web_schedule
  rw [hst st]
  cases r with
  | error e => rfl
  | ok schedule =>
    cases htr : schedule.isTruthy with
    | false => simp [htr]
    | true =>
      cases schedule with
      | arr items =>
        simp only [htr]
        cases hmi : mapItems processWebScheduleItem items with
        | ok out => simp [hmi]
        | error e => simp [hmi]
      | null => simp [Json.isTruthy] at htr
      | bool b => simp [htr]
      | num n => simp [htr]
      | str s2 => simp [htr]
      | obj fs => simp [htr]

/-- The model `get_episode_details` only ever bumps the upstream counter. -/
theorem get_episode_details_state (env : Env) (eid : Nat) (st : St) :
    ∃ k, 0 < k ∧ (ContentService.get_episode_details env eid st).2 =
      { st with upstreamCalls := st.upstreamCalls + k } := by
  obtain ⟨r, k, hk0, hk3, hst⟩ := make_request_spec env
    ("episodes/" ++ Nat.repr eid ++ "?embed[]=guestcast&embed[]=guestcrew") []
  refine ⟨k, hk0, ?_⟩
  unfold ContentService.get_episode_details
  rw [hst st]
  cases r with
  | error e => rfl
  | ok episode =>
    cases htr : episode.isTruthy with
    | false => simp [htr]
    | true =>
      cases hp : processEpisodeDetails episode with
      | ok out => simp [htr, hp]
      | error e => simp [htr, hp]

/-- The model `get_show_by_external_id` only ever bumps the upstream
counter. -/
theorem get_show_by_external_id_state (env : Env) (external_id source : String)
    (st : St) :
    ∃ k, 0 < k ∧ (ContentService.get_show_by_external_id env external_id source st).2 =
      { st with upstreamCalls := st.upstreamCalls + k } := by
  obtain ⟨r, k, hk0, hk3, hst⟩ := make_request_spec env
    ("lookup/shows?" ++ source ++ "=" ++ external_id) []
  refine ⟨k, hk0, ?_⟩
  unfold ContentService.get_show_by_external_id
  rw [hst st]
  cases r with
  | error e => rfl
  | ok showJ =>
    cases htr : showJ.isTruthy with
    | false => simp [htr]
    | true =>
      cases hp : processLookupShow showJ with
      | ok out => simp [htr, hp]
      | error e => simp [htr, hp]

/-- The model `get_show_updates` only ever bumps the upstream counter. -/
theorem get_show_updates_state (env : Env) (since : Option Nat) (st : St) :
    ∃ k, 0 < k ∧ (ContentService.get_show_updates env since st).2 =
      { st with upstreamCalls := st.upstreamCalls + k } := by
  obtain ⟨r, k, hk0, hk3, hst⟩ := make_request_spec env "updates/shows"
    (match since with
     | some n => if n = 0 then [] else [("since", Nat.repr n)]
     | none => [])
  refine ⟨k, hk0, ?_⟩
  unfold ContentService.get_show_updates
  rw [hst st]

/-- The model `get_person_updates` only ever bumps the upstream counter. -/
theorem get_person_updates_state (env : Env) (since : Option Nat) (st : St) :
    ∃ k, 0 < k ∧ (ContentService.get_person_updates env since st).2 =
      { st with upstreamCalls := st.upstreamCalls + k } := by
  obtain ⟨r, k, hk0, hk3, hst⟩ := make_request_spec env "updates/people"
    (match since with
     | some n => if n = 0 then [] else [("since", Nat.repr n)]
     | none => [])
  refine ⟨k, hk0, ?_⟩
  unfold ContentService.get_person_updates
  rw [hst st]

/-- The model `get_show_index` only ever bumps the upstream counter. -/
theorem get_show_index_state (env : Env) (page : Nat) (st : St) :
    ∃ k, 0 < k ∧ (ContentService.get_show_index env page st).2 =
      { st with upstreamCalls := st.upstreamCalls + k } := by
  obtain ⟨r, k, hk0, hk3, hst⟩ := make_request_spec env
    ("shows?page=" ++ Nat.repr page) []
  refine ⟨k, hk0, ?_⟩
  unfold ContentService.get_show_index
  rw [hst st]
  cases r with
  | error e => rfl
  | ok shows =>
    cases htr : shows.isTruthy with
    | false => simp [htr]
    | true =>
      cases shows with
      | arr items =>
        simp only [htr]
        cases hmi : mapItems processIndexShow items with
        | ok out => simp [hmi]
        | error e => simp [hmi]
      | null => simp [Json.isTruthy] at htr
      | bool b => simp [htr]
      | num n => simp [htr]
      | str s2 => simp [htr]
      | obj fs => simp [htr]

/-- The model `get_people_index` only ever bumps the upstream counter. -/
theorem get_people_index_state (env : Env) (page : Nat) (st : St) :
    ∃ k, 0 < k ∧ (ContentService.get_people_index env page st).2 =
      { st with upstreamCalls := st.upstreamCalls + k } := by
  obtain ⟨r, k, hk0, hk3, hst⟩ := make_request_spec env
    ("people?page=" ++ Nat.repr page) []
  refine ⟨k, hk0, ?_⟩
  unfold ContentService.get_people_index
  rw [hst st]
  cases r with
  | error e => rfl
  | ok people =>
    cases htr : people.isTruthy with
    | false => simp [htr]
    | true =>
      cases people with
      | arr items =>
        simp only [htr]
        cases hmi : mapItems processIndexPerson items with
        | ok out => simp [hmi]
        | error e => simp [hmi]
      | null => simp [Json.isTruthy] at htr
      | bool b => simp [htr]
      | num n => simp [htr]
      | str s2 => simp [htr]
      | obj fs => simp [htr]

/-- The model `get_person_details` only ever bumps the upstream counter
(three chained requests). -/
theorem get_person_details_state (env : Env) (pid : Nat) (st : St) :
    ∃ k, 0 < k ∧ (ContentService.get_person_details env pid st).2 =
      { st with upstreamCalls := st.upstreamCalls + k } := by
  obtain ⟨r1, k1, hk1, -, h1⟩ := make_request_spec env ("people/" ++ Nat.repr pid) []
  obtain ⟨r2, k2, hk2, -, h2⟩ :=
    make_request_spec env ("people/" ++ Nat.repr pid ++ "/castcredits?embed=show") []
  obtain ⟨r3, k3, hk3, -, h3⟩ :=
    make_request_spec env ("people/" ++ Nat.repr pid ++ "/crewcredits?embed=show") []
  unfold ContentService.get_person_details
  rw [h1]
  cases r1 with
  | error e => exact ⟨k1, hk1, rfl⟩
  | ok person =>
    dsimp only
    rw [h2]
    cases r2 with
    | error e =>
      refine ⟨k1 + k2, by omega, ?_⟩
      simp [Nat.add_assoc]
    | ok cast_credits =>
      dsimp only
      rw [h3]
      cases r3 with
      | error e =>
        refine ⟨k1 + (k2 + k3), by omega, ?_⟩
        simp [Nat.add_assoc]
      | ok crew_credits =>
        cases hp : processPersonDetails person cast_credits crew_credits with
        | error e =>
          refine ⟨k1 + (k2 + k3), by omega, ?_⟩
          simp [hp, Nat.add_assoc]
        | ok out =>
          refine ⟨k1 + (k2 + k3), by omega, ?_⟩
          simp [hp, Nat.add_assoc]

/-- The model `get_show_details` only ever bumps the upstream counter
(seven chained requests, with an early return on a falsy main payload). -/
theorem get_show_details_state (env : Env) (sid : Nat) (st : St) :
    ∃ k, 0 < k ∧ (ContentService.get_show_details env sid st).2 =
      { st with upstreamCalls := st.upstreamCalls + k } := by
  obtain ⟨r1, k1, hk1, -, h1⟩ := make_request_spec env ("shows/" ++ Nat.repr sid) []
  obtain ⟨r2, k2, hk2, -, h2⟩ :=
    make_request_spec env ("shows/" ++ Nat.repr sid ++ "/episodes") []
  obtain ⟨r3, k3, hk3, -, h3⟩ :=
    make_request_spec env ("shows/" ++ Nat.repr sid ++ "/cast") []
  obtain ⟨r4, k4, hk4, -, h4⟩ :=
    make_request_spec env ("shows/" ++ Nat.repr sid ++ "/crew") []
  obtain ⟨r5, k5, hk5, -, h5⟩ :=
    make_request_spec env ("shows/" ++ Nat.repr sid ++ "/akas") []
  obtain ⟨r6, k6, hk6, -, h6⟩ :=
    make_request_spec env ("shows/" ++ Nat.repr sid ++ "/images") []
  obtain ⟨r7, k7, hk7, -, h7⟩ :=
    make_request_spec env ("shows/" ++ Nat.repr sid ++ "/seasons") []
  unfold ContentService.get_show_details
  rw [h1]
  cases r1 with
  | error e => exact ⟨k1, hk1, rfl⟩
  | ok showJ =>
    cases htr : showJ.isTruthy with
    | false =>
      refine ⟨k1, hk1, ?_⟩
      simp [htr]
    | true =>
      simp only [htr]
      rw [h2]
      cases r2 with
      | error e =>
        refine ⟨k1 + k2, by omega, ?_⟩
        simp [Nat.add_assoc]
      | ok episodes =>
        dsimp only
        rw [h3]
        cases r3 with
        | error e =>
          refine ⟨k1 + (k2 + k3), by omega, ?_⟩
          simp [Nat.add_assoc]
        | ok cast =>
          dsimp only
          rw [h4]
          cases r4 with
          | error e =>
            refine ⟨k1 + (k2 + (k3 + k4)), by omega, ?_⟩
            simp [Nat.add_assoc]
          | ok crew =>
            dsimp only
            rw [h5]
            cases r5 with
            | error e =>
              refine ⟨k1 + (k2 + (k3 + (k4 + k5))), by omega, ?_⟩
              simp [Nat.add_assoc]
            | ok akas =>
              dsimp only
              rw [h6]
              cases r6 with
              | error e =>
                refine ⟨k1 + (k2 + (k3 + (k4 + (k5 + k6)))), by omega, ?_⟩
                simp [Nat.add_assoc]
              | ok images =>
                dsimp only
                rw [h7]
                cases r7 with
                | error e =>
                  refine ⟨k1 + (k2 + (k3 + (k4 + (k5 + (k6 + k7))))), by omega, ?_⟩
                  simp [Nat.add_assoc]
                | ok seasons =>
                  cases hp : processShowDetails showJ episodes cast crew akas
                      images seasons with
                  | error e =>
                    refine ⟨k1 + (k2 + (k3 + (k4 + (k5 + (k6 + k7))))), by omega, ?_⟩
                    simp [hp, Nat.add_assoc]
                  | ok out =>
                    refine ⟨k1 + (k2 + (k3 + (k4 + (k5 + (k6 + k7))))), by omega, ?_⟩
                    simp [hp, Nat.add_assoc]

/-- C5 amended: the cache-first discipline (deterministic key, cache
lookup, upstream only on miss) holds exactly for the six operations that
use the cache — search, get-by-id, credits, similar, trending and genres
serve a truthy cached value verbatim with zero upstream calls — while
schedule, web-schedule, person-search, person-detail, episode-detail,
external-ID lookup, the two update feeds, the show/people index operations
and show-details never compute a cache key or touch the cache store and
call the upstream client on every invocation. -/
theorem cache_first_only_for_cached_ops :
    (∀ env query ct lang page, 2 ≤ (pyStrip query).length →
      cacheFirstHit (searchCacheKey query ct lang page)
        (ContentService.search_content env query ct lang page)) ∧
    (∀ env tid cty, cacheFirstHit (contentCacheKey cty tid)
      (ContentService.get_content_by_id env tid cty)) ∧
    (∀ env tid cty, cacheFirstHit ("credits:" ++ cty ++ ":" ++ tid)
      (ContentService.get_cast_and_crew env tid cty)) ∧
    (∀ env tid cty page,
      cacheFirstHit ("similar:" ++ cty ++ ":" ++ tid ++ ":" ++ Nat.repr page)
        (ContentService.get_similar_content env tid cty page)) ∧
    (∀ env cty tw, cacheFirstHit ("trending:" ++ cty ++ ":" ++ tw)
      (ContentService.get_trending_content env cty tw)) ∧
    (∀ env cty, cacheFirstHit ("genres:" ++ cty)
      (ContentService.get_genres env cty)) ∧
    (∀ env country date, neverTouchesCache (ContentService.get_schedule env country date)) ∧
    (∀ env date country, neverTouchesCache (ContentService.get_web_schedule env date country)) ∧
    (∀ env query, neverTouchesCache (ContentService.search_people env query)) ∧
    (∀ env pid, neverTouchesCache (ContentService.get_person_details env pid)) ∧
    (∀ env eid, neverTouchesCache (ContentService.get_episode_details env eid)) ∧
    (∀ env ext src, neverTouchesCache (ContentService.get_show_by_external_id env ext src)) ∧
    (∀ env since, neverTouchesCache (ContentService.get_show_updates env since)) ∧
    (∀ env since, neverTouchesCache (ContentService.get_person_updates env since)) ∧
    (∀ env page, neverTouchesCache (ContentService.get_show_index env page)) ∧
    (∀ env page, neverTouchesCache (ContentService.get_people_index env page)) ∧
    (∀ env sid, neverTouchesCache (ContentService.get_show_details env sid)) := by
  refine ⟨?_, ?_, ?_, ?_, ?_, ?_, ?_, ?_, ?_, ?_, ?_, ?_, ?_, ?_, ?_, ?_, ?_⟩
  · intro env query ct lang page hlen st e hc ht
    unfold ContentService.search_content
    rw [if_neg (by simp [search_guard_false hlen])]
    rw [get_cached_data_eq, hc]
    simp only [Option.map_some']
    rw [if_pos ht]
  · intro env tid cty st e hc ht
    unfold ContentService.get_content_by_id
    rw [get_cached_data_eq, hc]
    simp only [Option.map_some']
    rw [if_pos ht]
  · intro env tid cty st e hc ht
    unfold ContentService.get_cast_and_crew
    rw [get_cached_data_eq, hc]
    simp only [Option.map_some']
    rw [if_pos ht]
  · intro env tid cty page st e hc ht
    unfold ContentService.get_similar_content
    rw [get_cached_data_eq, hc]
    simp only [Option.map_some']
    rw [if_pos ht]
  · intro env cty tw st e hc ht
    unfold ContentService.get_trending_content
    rw [get_cached_data_eq, hc]
    simp only [Option.map_some']
    rw [if_pos ht]
  · intro env cty st e hc ht
    unfold ContentService.get_genres
    rw [get_cached_data_eq, hc]
    simp only [Option.map_some']
    rw [if_pos ht]
  · intro env country date
    exact neverTouchesCache_of_state (get_schedule_state env country date)
  · intro env date country
    exact neverTouchesCache_of_state (get_web_schedule_state env date country)
  · intro env query
    exact neverTouchesCache_of_state (search_people_state env query)
  · intro env pid
    exact neverTouchesCache_of_state (get_person_details_state env pid)
  · intro env eid
    exact neverTouchesCache_of_state (get_episode_details_state env eid)
  · intro env ext src
    exact neverTouchesCache_of_state (get_show_by_external_id_state env ext src)
  · intro env since
    exact neverTouchesCache_of_state (get_show_updates_state env since)
  · intro env since
    exact neverTouchesCache_of_state (get_person_updates_state env since)
  · intro env page
    exact neverTouchesCache_of_state (get_show_index_state env page)
  · intro env page
    exact neverTouchesCache_of_state (get_people_index_state env page)
  · intro env sid
    exact neverTouchesCache_of_state (get_show_details_state env sid)

/-- C5 amended witness: cached hits of all six cached operations at
concrete states, and the cache-free behaviour of schedule at a concrete
input. -/
theorem cache_first_only_for_cached_ops_witness :
    ContentService.search_content envSearch "breaking" none none 1 stSearch1 =
      (.ok searchV1, { stSearch1 with cacheGets := stSearch1.cacheGets + 1 }) ∧
    ContentService.get_content_by_id envDetail "123" "tv" st123 =
      (.ok contentNormalized123, { st123 with cacheGets := st123.cacheGets + 1 }) ∧
    ContentService.get_cast_and_crew envEmpty "123" "tv" stCredits =
      (.ok creditsDoc, { stCredits with cacheGets := stCredits.cacheGets + 1 }) ∧
    ContentService.get_similar_content envEmpty "123" "tv" 1 stSimilar =
      (.ok searchV1, { stSimilar with cacheGets := stSimilar.cacheGets + 1 }) ∧
    ContentService.get_trending_content envEmpty "tv" "day" stTrending =
      (.ok trendingDoc, { stTrending with cacheGets := stTrending.cacheGets + 1 }) ∧
    ContentService.get_genres envEmpty "tv" stGenres =
      (.ok genresDoc, { stGenres with cacheGets := stGenres.cacheGets + 1 }) ∧
    ((ContentService.get_schedule envEmpty "US" none st0).2.cache = st0.cache ∧
      (ContentService.get_schedule envEmpty "US" none st0).2.cacheGets = st0.cacheGets ∧
      (ContentService.get_schedule envEmpty "US" none st0).2.cacheSets = st0.cacheSets ∧
      st0.upstreamCalls < (ContentService.get_schedule envEmpty "US" none st0).2.upstreamCalls) :=
  ⟨cache_first_only_for_cached_ops.1 envSearch "breaking" none none 1 (by decide)
      stSearch1 ⟨searchV1, 3600⟩ rfl rfl,
    cache_first_only_for_cached_ops.2.1 envDetail "123" "tv" st123
      ⟨contentNormalized123, 86400⟩ rfl rfl,
    cache_first_only_for_cached_ops.2.2.1 envEmpty "123" "tv" stCredits
      ⟨creditsDoc, 86400⟩ rfl rfl,
    cache_first_only_for_cached_ops.2.2.2.1 envEmpty "123" "tv" 1 stSimilar
      ⟨searchV1, 3600⟩ rfl rfl,
    cache_first_only_for_cached_ops.2.2.2.2.1 envEmpty "tv" "day" stTrending
      ⟨trendingDoc, 3600⟩ rfl rfl,
    cache_first_only_for_cached_ops.2.2.2.2.2.1 envEmpty "tv" stGenres
      ⟨genresDoc, 86400⟩ rfl rfl,
    cache_first_only_for_cached_ops.2.2.2.2.2.2.1 envEmpty "US" none st0⟩

/-- C9: the cache-hit test of the content service is Python truthiness of
the deserialized value, not key presence.  Part 1: with a stored value that
deserializes to a falsy document (e.g. `[]` or `{}`) under the search key,
`search_content` returns the same result and performs the same number of
upstream calls as with the key absent — a cached empty result is never
served from the cache.  Part 2: `search_content` writes to the cache only
on calls whose returned result list is non-empty. -/
theorem falsy_cached_value_is_miss_and_write_cond :
    (∀ env query ct lang page (v : Json) (ttl : Nat) rest g s u,
      v.isTruthy = false →
      lookupCache rest (searchCacheKey query ct lang page) = none →
      ((ContentService.search_content env query ct lang page
          ⟨(searchCacheKey query ct lang page, ⟨v, ttl⟩) :: rest, g, s, u⟩).1 =
        (ContentService.search_content env query ct lang page ⟨rest, g, s, u⟩).1 ∧
       (ContentService.search_content env query ct lang page
          ⟨(searchCacheKey query ct lang page, ⟨v, ttl⟩) :: rest, g, s, u⟩).2.upstreamCalls =
        (ContentService.search_content env query ct lang page
          ⟨rest, g, s, u⟩).2.upstreamCalls)) ∧
    (∀ env query ct lang page st,
      (ContentService.search_content env query ct lang page st).2.cacheSets ≠ st.cacheSets →
      ∃ v, (ContentService.search_content env query ct lang page st).1 = .ok v ∧
        (Json.field v "results").isTruthy = true) := by
  constructor
  · intro env query ct lang page v ttl rest g s u hv hrest
    cases hguard : ((query = "" : Bool) || ((pyStrip query).length < 2 : Bool)) with
    | true =>
      unfold ContentService.search_content
      rw [if_pos hguard, if_pos hguard]
      exact ⟨rfl, rfl⟩
    | false =>
      unfold ContentService.search_content
      rw [if_neg (by simp [hguard]), if_neg (by simp [hguard])]
      rw [get_cached_data_eq, get_cached_data_eq, hrest]
      have hl : lookupCache
          ((searchCacheKey query ct lang page, (⟨v, ttl⟩ : CacheEntry)) :: rest)
          (searchCacheKey query ct lang page) = some ⟨v, ttl⟩ := by
        simp [lookupCache]
      rw [hl]
      simp only [Option.map_some', Option.map_none']
      rw [if_neg (by simp [hv])]
      obtain ⟨r, k, w, hk, hfetch, hsome, hnone⟩ :=
        searchFetch_spec env query ct lang page (searchCacheKey query ct lang page)
      rw [hfetch, hfetch]
      refine ⟨rfl, ?_⟩
      rw [applyW_upstreamCalls, applyW_upstreamCalls]
  · intro env query ct lang page st hsets
    obtain ⟨r, k, w, hk, hfetch, hsome, hnone⟩ :=
      searchFetch_spec env query ct lang page (searchCacheKey query ct lang page)
    cases hguard : ((query = "" : Bool) || ((pyStrip query).length < 2 : Bool)) with
    | true =>
      exfalso
      apply hsets
      unfold ContentService.search_content
      rw [if_pos hguard]
    | false =>
      unfold ContentService.search_content at hsets ⊢
      rw [if_neg (by simp [hguard])] at hsets ⊢
      rw [get_cached_data_eq] at hsets ⊢
      cases hc : lookupCache st.cache (searchCacheKey query ct lang page) with
      | some e =>
        rw [hc] at hsets
        simp only [Option.map_some'] at hsets
        cases ht : e.value.isTruthy with
        | true =>
          rw [if_pos ht] at hsets
          exact absurd rfl hsets
        | false =>
          rw [if_neg (by simp [ht])] at hsets
          rw [hfetch] at hsets
          simp only [Option.map_some']
          rw [if_neg (by simp [ht])]
          rw [hfetch]
          cases w with
          | none => exact absurd rfl hsets
          | some v0 =>
            obtain ⟨hr0, htr⟩ := hsome v0 rfl
            exact ⟨v0, by rw [hr0], htr⟩
      | none =>
        rw [hc] at hsets
        simp only [Option.map_none'] at hsets
        rw [hfetch] at hsets
        simp only [Option.map_none']
        rw [hfetch]
        cases w with
        | none => exact absurd rfl hsets
        | some v0 =>
          obtain ⟨hr0, htr⟩ := hsome v0 rfl
          exact ⟨v0, by rw [hr0], htr⟩

/-- C9 witness: a cached empty list under the search key behaves exactly as
a miss, and a call whose cache-write happened returned a non-empty result
list. -/
theorem falsy_cached_value_is_miss_and_write_cond_witness :
    ((ContentService.search_content envEmpty "breaking" none none 1
        ⟨[("search:breaking:all:all:1", ⟨.arr [], 3600⟩)], 0, 0, 0⟩).1 =
      (ContentService.search_content envEmpty "breaking" none none 1 ⟨[], 0, 0, 0⟩).1 ∧
     (ContentService.search_content envEmpty "breaking" none none 1
        ⟨[("search:breaking:all:all:1", ⟨.arr [], 3600⟩)], 0, 0, 0⟩).2.upstreamCalls =
      (ContentService.search_content envEmpty "breaking" none none 1
        ⟨[], 0, 0, 0⟩).2.upstreamCalls) ∧
    (∃ v, (ContentService.search_content envSearch "breaking" none none 1 st0).1 = .ok v ∧
      (Json.field v "results").isTruthy = true) :=
  ⟨falsy_cached_value_is_miss_and_write_cond.1 envEmpty "breaking" none none 1
      (.arr []) 3600 [] 0 0 0 rfl rfl,
    falsy_cached_value_is_miss_and_write_cond.2 envSearch "breaking" none none 1 st0
      (by decide)⟩

/-- C8: when the watchlist of the authenticated user already contains the
requested content_id (in a referentially intact database, where every
watchlist row points at an existing content row), `POST /watchlist` fails
with HTTP 400, its detail contains "already in watchlist", and the database
is returned unchanged. -/
theorem duplicate_watchlist_rejected_400 (db : Db) (uid : Nat) (item : WatchlistCreate)
    (hwf : ∀ r ∈ db.watchlist, r.content_id ∈ db.contents)
    (hdup : ∃ r ∈ db.watchlist, r.user_id = uid ∧ r.content_id = item.content_id) :
    add_to_watchlist db uid item =
      (.error ⟨400, "Content already in watchlist"⟩, db) ∧
    strContains "Content already in watchlist" "already in watchlist" = true := by
  obtain ⟨r, hr, hru, hrc⟩ := hdup
  have hmem : item.content_id ∈ db.contents := hrc ▸ hwf r hr
  have hany : db.watchlist.any
      (fun x => x.user_id == uid && x.content_id == item.content_id) = true := by
    rw [List.any_eq_true]
    exact ⟨r, hr, by simp [hru, hrc]⟩
  refine ⟨?_, by decide⟩
  unfold add_to_watchlist
  simp [hmem, hany]

/-- C8 witness: user 1 re-adds content 7 which is already on the list. -/
theorem duplicate_watchlist_rejected_400_witness :
    add_to_watchlist ⟨[7], [⟨1, 7, 0, false⟩]⟩ 1 ⟨7, 0, false⟩ =
      (.error ⟨400, "Content already in watchlist"⟩, ⟨[7], [⟨1, 7, 0, false⟩]⟩) ∧
    strContains "Content already in watchlist" "already in watchlist" = true :=
  duplicate_watchlist_rejected_400 ⟨[7], [⟨1, 7, 0, false⟩]⟩ 1 ⟨7, 0, false⟩
    (by decide) (by decide)

/-- C10: every exception raised inside the register handler — the
duplicate-email and duplicate-username `HTTPException`s and any internal
database failure — is caught, the session rolled back (the database is
returned unchanged), and re-raised as HTTP 400 with `str(e)` as the
detail.  Register therefore never surfaces a 500, and the duplicate-email
detail is the mangled string "400: Email already registered" (Starlette
stringifies an `HTTPException` as "status: detail"), not
"Email already registered". -/
theorem register_maps_all_errors_to_400 :
    (∀ env db user e db1, register env db user = (.error e, db1) →
      e.status_code = 400 ∧ db1 = db) ∧
    (∀ env db user, db.users.any (fun u => u.email == user.email) = true →
      register env db user = (.error ⟨400, "400: Email already registered"⟩, db)) ∧
    (∀ env db user, db.users.any (fun u => u.email == user.email) = false →
      db.users.any (fun u => u.username == user.username) = true →
      register env db user = (.error ⟨400, "400: Username already taken"⟩, db)) ∧
    (∀ env db user msg, db.users.any (fun u => u.email == user.email) = false →
      db.users.any (fun u => u.username == user.username) = false →
      env.commitError = some msg →
      register env db user = (.error ⟨400, msg⟩, db)) := by
  refine ⟨?_, ?_, ?_, ?_⟩
  · intro env db user e db1 h
    unfold register at h
    split at h
    · simp at h
    · simp only [Prod.mk.injEq] at h
      obtain ⟨he, hdb⟩ := h
      injection he with hee
      exact ⟨by rw [← hee], hdb.symm⟩
  · intro env db user h1
    unfold register registerBody
    rw [if_pos h1]
    rfl
  · intro env db user h1 h2
    unfold register registerBody
    rw [if_neg (by simp [h1]), if_pos h2]
    rfl
  · intro env db user msg h1 h2 hc
    unfold register registerBody
    rw [if_neg (by simp [h1]), if_neg (by simp [h2]), hc]
    rfl

/-- C10 witness: registering a duplicate email yields the mangled 400. -/
theorem register_maps_all_errors_to_400_witness :
    register ⟨fun p => p, none⟩ ⟨[⟨"u1", "a@b.c", "h"⟩]⟩ ⟨"u2", "a@b.c", "pw"⟩ =
      (.error ⟨400, "400: Email already registered"⟩, ⟨[⟨"u1", "a@b.c", "h"⟩]⟩) :=
  register_maps_all_errors_to_400.2.1 ⟨fun p => p, none⟩ ⟨[⟨"u1", "a@b.c", "h"⟩]⟩
    ⟨"u2", "a@b.c", "pw"⟩ (by decide)

/-! ### C3: cache-key injectivity -/

/-- C3 counterexample: the key is NOT injective over the parameter tuple.
An omitted content_type and the explicit filter "all" produce the same key
(`x or "all"` collapses `None`, `""` and `"all"`), and an unescaped ':'
inside a parameter also collides (query "ab:c" with no filter versus query
"ab" with content-type "c:all").  Both collisions at page 1: -/
theorem searchCacheKey_not_injective :
    (searchCacheKey "ab" none none 1 = searchCacheKey "ab" (some "all") none 1 ∧
      ("ab", (none : Option String), (none : Option String), (1 : Nat)) ≠
        ("ab", some "all", none, 1)) ∧
    (searchCacheKey "ab:c" none none 1 = searchCacheKey "ab" (some "c:all") none 1 ∧
      ("ab:c", (none : Option String), (none : Option String), (1 : Nat)) ≠
        ("ab", some "c:all", none, 1)) :=
  ⟨⟨by decide, by decide⟩, ⟨by decide, by decide⟩⟩

theorem string_data_ext {a b : String} (h : a.data = b.data) : a = b := by
  cases a
  cases b
  simp only [String.data] at h
  rw [h]

/-- Splitting a list at a separator that occurs in neither left part is
unambiguous. -/
theorem sep_split {xs xs2 ys ys2 : List Char} (h1 : ':' ∉ xs) (h2 : ':' ∉ xs2)
    (h : xs ++ ':' :: ys = xs2 ++ ':' :: ys2) : xs = xs2 ∧ ys = ys2 := by
  induction xs generalizing xs2 with
  | nil =>
    cases xs2 with
    | nil => simpa using h
    | cons a t =>
      exfalso
      simp only [List.nil_append, List.cons_append, List.cons.injEq] at h
      apply h2
      rw [← h.1]
      exact List.mem_cons_self ':' t
  | cons a t ih =>
    cases xs2 with
    | nil =>
      exfalso
      simp only [List.cons_append, List.nil_append, List.cons.injEq] at h
      apply h1
      rw [h.1]
      exact List.mem_cons_self ':' t
    | cons b t2 =>
      simp only [List.cons_append, List.cons.injEq] at h
      obtain ⟨hab, hrest⟩ := h
      have ht1 : ':' ∉ t := fun hm => h1 (List.mem_cons_of_mem a hm)
      have ht2 : ':' ∉ t2 := fun hm => h2 (List.mem_cons_of_mem b hm)
      obtain ⟨hte, hy⟩ := ih ht1 ht2 hrest
      exact ⟨by rw [hab, hte], hy⟩

/-- A "well-behaved" optional filter value: either omitted or a non-empty,
colon-free string other than the sentinel "all". -/
def goodFilter : Option String → Prop
  | none => True
  | some s => s ≠ "" ∧ s ≠ "all" ∧ ':' ∉ s.data

theorem pyOrAll_colon_free {f : Option String} (hf : goodFilter f) :
    ':' ∉ (pyOrAll f).data := by
  cases f with
  | none => decide
  | some s =>
    obtain ⟨h1, _, h3⟩ := hf
    simpa [pyOrAll, h1] using h3

theorem pyOrAll_inj {f g : Option String} (hf : goodFilter f) (hg : goodFilter g)
    (h : pyOrAll f = pyOrAll g) : f = g := by
  cases f with
  | none =>
    cases g with
    | none => rfl
    | some s =>
      obtain ⟨h1, h2, _⟩ := hg
      rw [pyOrAll, pyOrAll] at h
      rw [if_neg h1] at h
      exact absurd h.symm h2
  | some s =>
    cases g with
    | none =>
      obtain ⟨h1, h2, _⟩ := hf
      rw [pyOrAll, pyOrAll] at h
      rw [if_neg h1] at h
      exact absurd h h2
    | some s2 =>
      obtain ⟨h1, _, _⟩ := hf
      obtain ⟨h2, _, _⟩ := hg
      rw [pyOrAll, pyOrAll, if_neg h1, if_neg h2] at h
      rw [h]

theorem searchCacheKey_data (q : String) (c l : Option String) (p : Nat) :
    (searchCacheKey q c l p).data =
      "search:".data ++ (q.data ++ ':' :: ((pyOrAll c).data ++ ':' ::
        ((pyOrAll l).data ++ ':' :: (Nat.repr p).data))) := by
  show ("search:" ++ q ++ ":" ++ pyOrAll c ++ ":" ++ pyOrAll l ++ ":"
    ++ Nat.repr p).data = _
  simp [String.data_append, List.append_assoc, List.singleton_append]

/-- C3 amended: the search cache key is injective over the parameter tuple
provided the query contains no ':' and each optional filter is either
omitted or a non-empty, colon-free string other than the sentinel "all"
(an omitted or empty filter is consistently replaced by the sentinel "all",
so `None`, `""` and `"all"` collide, and an unescaped ':' lets adjacent
components bleed into each other — see the counterexample). -/
theorem searchCacheKey_injective_on_colon_free
    (q1 q2 : String) (c1 c2 l1 l2 : Option String) (p1 p2 : Nat)
    (hq1 : ':' ∉ q1.data) (hq2 : ':' ∉ q2.data)
    (hc1 : goodFilter c1) (hc2 : goodFilter c2)
    (hl1 : goodFilter l1) (hl2 : goodFilter l2)
    (h : searchCacheKey q1 c1 l1 p1 = searchCacheKey q2 c2 l2 p2) :
    q1 = q2 ∧ c1 = c2 ∧ l1 = l2 ∧ p1 = p2 := by
  have hd := congrArg String.data h
  rw [searchCacheKey_data, searchCacheKey_data] at hd
  have hd2 := List.append_cancel_left hd
  obtain ⟨hq, hrest⟩ := sep_split hq1 hq2 hd2
  obtain ⟨hc, hrest2⟩ :=
    sep_split (pyOrAll_colon_free hc1) (pyOrAll_colon_free hc2) hrest
  obtain ⟨hl, hp⟩ :=
    sep_split (pyOrAll_colon_free hl1) (pyOrAll_colon_free hl2) hrest2
  refine ⟨string_data_ext hq, pyOrAll_inj hc1 hc2 (string_data_ext hc),
    pyOrAll_inj hl1 hl2 (string_data_ext hl), nat_repr_inj (string_data_ext hp)⟩

/-- C3 amended witness: injectivity applied at a concrete well-behaved
tuple. -/
theorem searchCacheKey_injective_witness :
    ("br" : String) = "br" ∧ (some "tv" : Option String) = some "tv" ∧
    (some "en" : Option String) = some "en" ∧ (2 : Nat) = 2 :=
  searchCacheKey_injective_on_colon_free "br" "br" (some "tv") (some "tv")
    (some "en") (some "en") 2 2 (by decide) (by decide)
    ⟨by decide, by decide, by decide⟩ ⟨by decide, by decide, by decide⟩
    ⟨by decide, by decide, by decide⟩ ⟨by decide, by decide, by decide⟩ rfl

end Cinetrack
